import Mathlib

/-!
Verification of the configuration and command-routing core of the
system76-power repository (src/config.rs and src/main.rs).

The Rust code is shallowly embedded: documents are `List Char` (the
`Vec<u8>` buffers of the source, one `Char` per byte), `u8` fields are
`Nat` (the source performs no arithmetic on them, only formatting),
fallible operations return `Option` or `Except`, and the filesystem
touched by `Config::new`/`Config::write`/`Config::read` is an explicit
state record.  Serialization is translated line by line from the
`serialize_toml` implementations; deserialization models the
serde-derived `Deserialize` impls (field names, `#[serde(default)]`
attributes, `#[serde(rename)]` tags, unknown keys ignored) over the
subset of TOML that the `toml` crate accepts and these documents use.
-/

/-- The single-quote character used by the TOML literal strings the
serializer emits. -/
def qc : Char := '\''

/-- The newline byte. -/
def nl : Char := '\n'

/-- Shorthand: the characters of a string literal. -/
def chars (s : String) : List Char := s.toList

/-- Decimal digit characters, as emitted by Rust's `Display` for `u8`
(`digitChar n` is only ever used with `n < 10`). -/
def digitChar : Nat → Char
  | 0 => '0'
  | 1 => '1'
  | 2 => '2'
  | 3 => '3'
  | 4 => '4'
  | 5 => '5'
  | 6 => '6'
  | 7 => '7'
  | 8 => '8'
  | _ => '9'

/-- Fuel-driven digit renderer (structural recursion so that the
kernel can evaluate it; the fuel is always sufficient when called
through `natRepr`). -/
def natReprAux : Nat → Nat → List Char
  | 0, _ => []
  | fuel + 1, n =>
    if n < 10 then [digitChar n]
    else natReprAux fuel (n / 10) ++ [digitChar (n % 10)]

/-- Decimal rendering of a natural number, as Rust's `Display` for
unsigned integers renders it (most significant digit first, no sign,
no padding). -/
def natRepr (n : Nat) : List Char := natReprAux (n + 1) n

/-- Rendering of a Rust `bool` by `Display` (`true` / `false`). -/
def boolStr (b : Bool) : List Char := if b then chars "true" else chars "false"

/-- `enum Profile` from src/config.rs. -/
inductive Profile
  | Battery
  | Balanced
  | Performance
  deriving DecidableEq

/-- `impl From<Profile> for &'static str` from src/config.rs: the
canonical identifier of each profile. -/
def Profile.toStr : Profile → List Char
  | .Balanced => chars "balanced"
  | .Battery => chars "battery"
  | .Performance => chars "performance"

/-- The serde-derived `Deserialize` for `Profile` with its
`#[serde(rename = ...)]` tags: exactly the three canonical identifiers
are accepted (case-sensitive, no trimming), anything else is an
`unknown variant` error (`none`). -/
def Profile.fromStr (s : List Char) : Option Profile :=
  if s = chars "battery" then some .Battery
  else if s = chars "balanced" then some .Balanced
  else if s = chars "performance" then some .Performance
  else none

/-- `Profile::ac_default` from src/config.rs. -/
def Profile.ac_default : Profile := .Performance

/-- `Profile::battery_default` from src/config.rs. -/
def Profile.battery_default : Profile := .Balanced

/-- `struct ConfigDefaults` from src/config.rs. -/
structure ConfigDefaults where
  battery : Profile
  ac : Profile
  last_profile : Profile
  experimental : Bool
  deriving DecidableEq

/-- `impl Default for ConfigDefaults` from src/config.rs. -/
def ConfigDefaults.default : ConfigDefaults :=
  { battery := Profile.battery_default
    ac := Profile.ac_default
    last_profile := Profile.battery_default
    experimental := false }

/-- `struct ConfigThresholds` from src/config.rs.  Plain data: the
source attaches no validation to construction or deserialization. -/
structure ConfigThresholds where
  critical : Nat
  normal : Nat
  deriving DecidableEq

/-- `impl Default for ConfigThresholds` from src/config.rs. -/
def ConfigThresholds.default : ConfigThresholds := { critical := 25, normal := 50 }

/-- `struct ConfigBacklight` from src/config.rs. -/
structure ConfigBacklight where
  keyboard : Nat
  screen : Nat
  deriving DecidableEq

/-- `ConfigBacklight::battery` from src/config.rs. -/
def ConfigBacklight.battery : ConfigBacklight := { keyboard := 0, screen := 10 }

/-- `ConfigBacklight::balanced` from src/config.rs. -/
def ConfigBacklight.balanced : ConfigBacklight := { keyboard := 50, screen := 40 }

/-- `ConfigBacklight::performance` from src/config.rs. -/
def ConfigBacklight.performance : ConfigBacklight := { keyboard := 100, screen := 100 }

/-- `struct ConfigPState` from src/config.rs. -/
structure ConfigPState where
  min : Nat
  max : Nat
  turbo : Bool
  deriving DecidableEq

/-- `ConfigPState::battery` from src/config.rs. -/
def ConfigPState.battery : ConfigPState := { min := 0, max := 50, turbo := false }

/-- `ConfigPState::balanced` from src/config.rs. -/
def ConfigPState.balanced : ConfigPState := { min := 0, max := 100, turbo := true }

/-- `ConfigPState::performance` from src/config.rs. -/
def ConfigPState.performance : ConfigPState := { min := 50, max := 100, turbo := true }

/-- `struct ConfigProfile` from src/config.rs.  The script path
(`Option<PathBuf>`) is kept as the bytes `PathBuf::display` would
print. -/
structure ConfigProfile where
  backlight : Option ConfigBacklight
  pstate : Option ConfigPState
  script : Option (List Char)
  deriving DecidableEq

/-- `ConfigProfile::battery` from src/config.rs. -/
def ConfigProfile.battery : ConfigProfile :=
  { backlight := some ConfigBacklight.battery
    pstate := some ConfigPState.battery
    script := none }

/-- `ConfigProfile::balanced` from src/config.rs. -/
def ConfigProfile.balanced : ConfigProfile :=
  { backlight := some ConfigBacklight.balanced
    pstate := some ConfigPState.balanced
    script := none }

/-- `ConfigProfile::performance` from src/config.rs. -/
def ConfigProfile.performance : ConfigProfile :=
  { backlight := some ConfigBacklight.performance
    pstate := some ConfigPState.performance
    script := none }

/-- `struct ConfigProfiles` from src/config.rs. -/
structure ConfigProfiles where
  battery : ConfigProfile
  balanced : ConfigProfile
  performance : ConfigProfile
  deriving DecidableEq

/-- `impl Default for ConfigProfiles` from src/config.rs. -/
def ConfigProfiles.default : ConfigProfiles :=
  { battery := ConfigProfile.battery
    balanced := ConfigProfile.balanced
    performance := ConfigProfile.performance }

/-- `struct Config` from src/config.rs. -/
structure Config where
  defaults : ConfigDefaults
  thresholds : ConfigThresholds
  profiles : ConfigProfiles
  deriving DecidableEq

/-- `impl Default for Config` from src/config.rs. -/
def Config.default : Config :=
  { defaults := ConfigDefaults.default
    thresholds := ConfigThresholds.default
    profiles := ConfigProfiles.default }

/-!
## Serialization (`Config::serialize` and the `serialize_toml` helpers)

Every chunk the source appends to the output buffer is newline
terminated, so the emitted document is exactly the concatenation of its
lines, each followed by a newline byte.  Each `lines` definition below
lists, in order, the lines the corresponding `serialize_toml` method
writes; `Config.serialize` joins them back into the byte stream.
-/

/-- The lines `ConfigDefaults::serialize_toml` appends (one `writeln!`
with embedded newlines, then the `experimental` comment block, which
ends with a blank line). -/
def ConfigDefaults.lines (d : ConfigDefaults) : List (List Char) :=
  [ chars "[defaults]"
  , chars "# The default profile that will be set on disconnecting from AC."
  , chars "battery = " ++ [qc] ++ d.battery.toStr ++ [qc]
  , chars "# The default profile that will be set on connecting to AC."
  , chars "ac = " ++ [qc] ++ d.ac.toStr ++ [qc]
  , chars "# The last profile that was activated"
  , chars "last_profile = " ++ [qc] ++ d.last_profile.toStr ++ [qc]
  , chars "# Uncomment to enable extra untested power-saving features"
  , if d.experimental then chars "experimental = true" else chars "# experimental = true"
  , [] ]

/-- The lines `ConfigThresholds::serialize_toml` appends.  Note the
section header `[threshold]` and the misspelled key `crtical`, exactly
as in the source. -/
def ConfigThresholds.lines (t : ConfigThresholds) : List (List Char) :=
  [ chars "[threshold]"
  , chars "# Defines what percentage of battery is required to set the profile to "
      ++ [qc] ++ chars "battery" ++ [qc] ++ chars "."
  , chars "crtical = " ++ natRepr t.critical
  , chars "# Defines what percentage of battery is required to revert the critical change."
  , chars "normal = " ++ natRepr t.normal
  , [] ]

/-- The line `ConfigBacklight::serialize_toml` writes (an inline
table). -/
def ConfigBacklight.line (b : ConfigBacklight) : List Char :=
  chars "backlight = \x7b keyboard = " ++ natRepr b.keyboard
    ++ chars ", screen = " ++ natRepr b.screen ++ chars " \x7d"

/-- The line `ConfigPState::serialize_toml` writes (an inline table). -/
def ConfigPState.line (p : ConfigPState) : List Char :=
  chars "pstate = \x7b min = " ++ natRepr p.min ++ chars ", max = " ++ natRepr p.max
    ++ chars ", turbo = " ++ boolStr p.turbo ++ chars " \x7d"

/-- The lines `ConfigProfile::serialize_toml` appends: optional
backlight line, optional pstate line, the script line (written with key
`battery` when a script is set, exactly as the source does, and as the
comment `# script = '$PATH'` when absent), and the trailing blank
line. -/
def ConfigProfile.lines (p : ConfigProfile) : List (List Char) :=
  (match p.backlight with
    | some b => [b.line]
    | none => []) ++
  (match p.pstate with
    | some ps => [ps.line]
    | none => []) ++
  [ match p.script with
    | some s => chars "battery = " ++ [qc] ++ s ++ [qc]
    | none => chars "# script = " ++ [qc] ++ chars "$PATH" ++ [qc] ] ++
  [ [] ]

/-- The lines `ConfigProfiles::serialize_toml` appends: one section per
profile, in the fixed order battery, balanced, performance. -/
def ConfigProfiles.lines (ps : ConfigProfiles) : List (List Char) :=
  [chars "[profiles.battery]"] ++ ps.battery.lines ++
  [chars "[profiles.balanced]"] ++ ps.balanced.lines ++
  [chars "[profiles.performance]"] ++ ps.performance.lines

/-- All lines of the document `Config::serialize` produces: the header
comment (followed by a blank line), then the defaults, threshold and
profile sections. -/
def Config.docLines (c : Config) : List (List Char) :=
  [chars "# This config is automatically generated by system76-power.", []] ++
  c.defaults.lines ++ c.thresholds.lines ++ c.profiles.lines

/-- `Config::serialize` from src/config.rs: the emitted byte stream
(every line followed by a newline byte, exactly as the `writeln!` and
`extend_from_slice` calls of the source produce it). -/
def Config.serialize (c : Config) : List Char :=
  (c.docLines.map (fun l => l ++ [nl])).flatten

/-!
## Deserialization (`toml::from_slice` + the serde `Deserialize` derives)

`Config::read` feeds the document to `toml::from_slice::<Config>`.  The
model below parses the subset of TOML these documents are written in
(comments, blank lines, `[section]` headers, `key = value` lines whose
value is an integer, a boolean, a single-quoted literal string, or an
inline table of such scalars) into a flat list of raw items, and then
applies the serde field semantics of the derived impls: a field whose
key is missing takes its `#[serde(default)]` / `Option = None` default,
a present key of the wrong shape is an error, and unknown keys and
sections are ignored (serde's default for structs without
`deny_unknown_fields`).  Constructs the serializer never emits (nested
inline tables, escaped basic strings, arrays, dotted keys, duplicate
keys) are outside the model.
-/

/-- A scalar TOML value of the shapes these documents contain. -/
inductive TomlScalar
  | int (n : Nat)
  | bool (b : Bool)
  | str (s : List Char)
  deriving DecidableEq

/-- A TOML value: a scalar, or an inline table of scalars. -/
inductive TomlValue
  | scalar (s : TomlScalar)
  | table (kvs : List (List Char × TomlScalar))
  deriving DecidableEq

/-- A raw parsed document item: a section header, or a key/value pair
together with the section it appeared under (`[]` = top level). -/
inductive RawItem
  | header (name : List Char)
  | kv (sec : List Char) (key : List Char) (val : TomlValue)
  deriving DecidableEq

/-- TOML whitespace inside a line (space or tab). -/
def isSpaceChar (c : Char) : Bool := c = ' ' || c = '\t'

/-- Strip leading and trailing spaces/tabs. -/
def trimSpaces (cs : List Char) : List Char :=
  ((cs.dropWhile isSpaceChar).reverse.dropWhile isSpaceChar).reverse

/-- Split a character list at every occurrence of `sep` (the separators
are consumed; `n` separators yield `n+1` pieces). -/
def splitOnChar (sep : Char) : List Char → List (List Char)
  | [] => [[]]
  | c :: cs =>
    if c = sep then [] :: splitOnChar sep cs
    else
      let rest := splitOnChar sep cs
      (c :: rest.headI) :: rest.tail

/-- Split at the first occurrence of `sep`, if any. -/
def splitFirst (sep : Char) : List Char → Option (List Char × List Char)
  | [] => none
  | c :: cs =>
    if c = sep then some ([], cs)
    else (splitFirst sep cs).map (fun p => (c :: p.1, p.2))

/-- Parse one decimal digit. -/
def charDigit (c : Char) : Option Nat :=
  if c = '0' then some 0
  else if c = '1' then some 1
  else if c = '2' then some 2
  else if c = '3' then some 3
  else if c = '4' then some 4
  else if c = '5' then some 5
  else if c = '6' then some 6
  else if c = '7' then some 7
  else if c = '8' then some 8
  else if c = '9' then some 9
  else none

/-- Accumulating decimal reader. -/
def readNatFrom (acc : Nat) : List Char → Option Nat
  | [] => some acc
  | c :: cs =>
    match charDigit c with
    | some d => readNatFrom (acc * 10 + d) cs
    | none => none

/-- Parse a nonempty all-digit character list as a natural number. -/
def readNat (cs : List Char) : Option Nat :=
  if cs = [] then none else readNatFrom 0 cs

/-- Parse a scalar TOML value: a single-quoted literal string, a
boolean, or a (nonnegative) integer. -/
def parseScalar (cs : List Char) : Option TomlScalar :=
  let t := trimSpaces cs
  if t.head? = some qc then
    if t.getLast? = some qc ∧ 2 ≤ t.length ∧ qc ∉ (t.drop 1).dropLast
    then some (.str ((t.drop 1).dropLast))
    else none
  else if t = chars "true" then some (.bool true)
  else if t = chars "false" then some (.bool false)
  else (readNat t).map .int

/-- Parse one `key = scalar` item of an inline table. -/
def parseItemKV (cs : List Char) : Option (List Char × TomlScalar) :=
  match splitFirst '=' cs with
  | none => none
  | some (k, v) =>
    let key := trimSpaces k
    if key = [] then none
    else (parseScalar v).map (fun w => (key, w))

/-- Parse every comma-separated item of an inline table (any failing
item fails the table). -/
def parseItems : List (List Char) → Option (List (List Char × TomlScalar))
  | [] => some []
  | p :: ps =>
    match parseItemKV p with
    | none => none
    | some kv => (parseItems ps).map (kv :: ·)

/-- Parse a TOML value: an inline table of scalars, or a scalar. -/
def parseValue (cs : List Char) : Option TomlValue :=
  let t := trimSpaces cs
  if t.head? = some '\x7b' then
    if t.getLast? = some '\x7d' ∧ 2 ≤ t.length
    then (parseItems (splitOnChar ',' ((t.drop 1).dropLast))).map .table
    else none
  else (parseScalar cs).map .scalar

/-- One line of a document, classified. -/
inductive TomlLine
  | blank
  | comment
  | header (name : List Char)
  | keyval (key : List Char) (val : TomlValue)
  deriving DecidableEq

/-- Parse one line: blank, `#` comment, `[section]` header, or
`key = value`. -/
def parseLine (cs : List Char) : Option TomlLine :=
  let t := trimSpaces cs
  if t = [] then some .blank
  else if t.head? = some '#' then some .comment
  else if t.head? = some '[' then
    if t.getLast? = some ']' ∧ 3 ≤ t.length
    then some (.header ((t.drop 1).dropLast))
    else none
  else
    match splitFirst '=' t with
    | none => none
    | some (k, v) =>
      let key := trimSpaces k
      if key = [] then none
      else (parseValue v).map (fun w => .keyval key w)

/-- Parse a list of lines into raw items, threading the current section
name (second component of the result); any unparsable line fails the
whole document. -/
def parseDocLines (sec : List Char) : List (List Char) → Option (List RawItem × List Char)
  | [] => some ([], sec)
  | l :: ls =>
    match parseLine l with
    | none => none
    | some .blank => parseDocLines sec ls
    | some .comment => parseDocLines sec ls
    | some (.header name) =>
      (parseDocLines name ls).map (fun r => (.header name :: r.1, r.2))
    | some (.keyval k v) =>
      (parseDocLines sec ls).map (fun r => (.kv sec k v :: r.1, r.2))

/-- Parse a whole document into its raw items. -/
def parseDoc (doc : List Char) : Option (List RawItem) :=
  (parseDocLines [] (splitOnChar nl doc)).map (·.1)

/-- The section headers of a parsed document, in order of appearance. -/
def rawHeaders (raw : List RawItem) : List (List Char) :=
  raw.filterMap fun
    | .header n => some n
    | .kv _ _ _ => none

/-- The key/value pairs recorded under section `sec`, in order. -/
def sectionKVs (raw : List RawItem) (sec : List Char) : List (List Char × TomlValue) :=
  raw.filterMap fun
    | .header _ => none
    | .kv s k v => if s = sec then some (k, v) else none

/-- Whether the top-level TOML table resulting from the document has a
key `k`: some `[k]` header, or some `[k.sub]` header, occurred. -/
def hasTopKey (raw : List RawItem) (k : List Char) : Bool :=
  (rawHeaders raw).any fun h => h = k || (k ++ ['.']).isPrefixOf h

/-- Look up a key among the pairs of a section (first occurrence). -/
def lookupKV (pairs : List (List Char × TomlValue)) (k : List Char) : Option TomlValue :=
  (pairs.find? (fun p => p.1 = k)).map (·.2)

/-- serde: a `Profile` field with a `#[serde(default = ...)]`
attribute — missing takes the default, a present string must be a
canonical identifier, any other shape is an error. -/
def profileField (pairs : List (List Char × TomlValue)) (k : List Char) (dflt : Profile) :
    Option Profile :=
  match lookupKV pairs k with
  | none => some dflt
  | some (.scalar (.str s)) => Profile.fromStr s
  | some _ => none

/-- serde: a required `u8` field — missing or non-integer is an
error. -/
def natField (pairs : List (List Char × TomlValue)) (k : List Char) : Option Nat :=
  match lookupKV pairs k with
  | some (.scalar (.int n)) => some n
  | _ => none

/-- serde: a `bool` field with `#[serde(default)]` (false when
missing). -/
def boolFieldD (pairs : List (List Char × TomlValue)) (k : List Char) : Option Bool :=
  match lookupKV pairs k with
  | none => some false
  | some (.scalar (.bool b)) => some b
  | some _ => none

/-- Look up a key among the scalar pairs of an inline table. -/
def lookupKVS (kvs : List (List Char × TomlScalar)) (k : List Char) : Option TomlScalar :=
  (kvs.find? (fun p => p.1 = k)).map (·.2)

/-- serde: a required `u8` field of an inline table. -/
def natFieldS (kvs : List (List Char × TomlScalar)) (k : List Char) : Option Nat :=
  match lookupKVS kvs k with
  | some (.int n) => some n
  | _ => none

/-- serde: a required `bool` field of an inline table. -/
def boolFieldS (kvs : List (List Char × TomlScalar)) (k : List Char) : Option Bool :=
  match lookupKVS kvs k with
  | some (.bool b) => some b
  | _ => none

/-- The derived `Deserialize` for `ConfigDefaults`: every profile field
carries a `#[serde(default = ...)]` attribute, `experimental` carries
`#[serde(default)]`. -/
def ConfigDefaults.fromPairs (pairs : List (List Char × TomlValue)) : Option ConfigDefaults := do
  let battery ← profileField pairs (chars "battery") Profile.battery_default
  let ac ← profileField pairs (chars "ac") Profile.ac_default
  let last ← profileField pairs (chars "last_profile") Profile.battery_default
  let experimental ← boolFieldD pairs (chars "experimental")
  pure { battery := battery, ac := ac, last_profile := last, experimental := experimental }

/-- The derived `Deserialize` for `ConfigThresholds`: both fields are
required (no per-field default attribute in the source). -/
def ConfigThresholds.fromPairs (pairs : List (List Char × TomlValue)) : Option ConfigThresholds := do
  let critical ← natField pairs (chars "critical")
  let normal ← natField pairs (chars "normal")
  pure { critical := critical, normal := normal }

/-- The derived `Deserialize` for `ConfigBacklight`. -/
def ConfigBacklight.fromTable (kvs : List (List Char × TomlScalar)) : Option ConfigBacklight := do
  let keyboard ← natFieldS kvs (chars "keyboard")
  let screen ← natFieldS kvs (chars "screen")
  pure { keyboard := keyboard, screen := screen }

/-- The derived `Deserialize` for `ConfigPState`. -/
def ConfigPState.fromTable (kvs : List (List Char × TomlScalar)) : Option ConfigPState := do
  let mn ← natFieldS kvs (chars "min")
  let mx ← natFieldS kvs (chars "max")
  let turbo ← boolFieldS kvs (chars "turbo")
  pure { min := mn, max := mx, turbo := turbo }

/-- The derived `Deserialize` for `ConfigProfile`: all three fields are
`Option`s, so a missing key is `none`; unknown keys (such as the
`battery` key the serializer writes for the script) are ignored. -/
def ConfigProfile.fromPairs (pairs : List (List Char × TomlValue)) : Option ConfigProfile := do
  let backlight ←
    match lookupKV pairs (chars "backlight") with
    | none => some none
    | some (.table kvs) => (ConfigBacklight.fromTable kvs).map some
    | some _ => none
  let pstate ←
    match lookupKV pairs (chars "pstate") with
    | none => some none
    | some (.table kvs) => (ConfigPState.fromTable kvs).map some
    | some _ => none
  let script ←
    match lookupKV pairs (chars "script") with
    | none => some none
    | some (.scalar (.str s)) => some (some s)
    | some _ => none
  pure { backlight := backlight, pstate := pstate, script := script }

/-- The derived `Deserialize` for `ConfigProfiles`: each field carries
`#[serde(default = "ConfigProfile::...")]`. -/
def ConfigProfiles.fromRaw (raw : List RawItem) : Option ConfigProfiles := do
  let battery ←
    if hasTopKey raw (chars "profiles.battery") then
      ConfigProfile.fromPairs (sectionKVs raw (chars "profiles.battery"))
    else some ConfigProfile.battery
  let balanced ←
    if hasTopKey raw (chars "profiles.balanced") then
      ConfigProfile.fromPairs (sectionKVs raw (chars "profiles.balanced"))
    else some ConfigProfile.balanced
  let performance ←
    if hasTopKey raw (chars "profiles.performance") then
      ConfigProfile.fromPairs (sectionKVs raw (chars "profiles.performance"))
    else some ConfigProfile.performance
  pure { battery := battery, balanced := balanced, performance := performance }

/-- The derived `Deserialize` for `Config`: each field carries
`#[serde(default)]`, so a missing section falls back to the
corresponding `Default` impl; unknown sections (such as the
`[threshold]` section the serializer writes) are ignored. -/
def Config.fromRaw (raw : List RawItem) : Option Config := do
  let defaults ←
    if hasTopKey raw (chars "defaults") then
      ConfigDefaults.fromPairs (sectionKVs raw (chars "defaults"))
    else some ConfigDefaults.default
  let thresholds ←
    if hasTopKey raw (chars "thresholds") then
      ConfigThresholds.fromPairs (sectionKVs raw (chars "thresholds"))
    else some ConfigThresholds.default
  let profiles ←
    if hasTopKey raw (chars "profiles") then ConfigProfiles.fromRaw raw
    else some ConfigProfiles.default
  pure { defaults := defaults, thresholds := thresholds, profiles := profiles }

/-- `toml::from_slice::<Config>` as `Config::read` invokes it. -/
def Config.deserialize (doc : List Char) : Option Config :=
  (parseDoc doc).bind Config.fromRaw

/-!
## Configuration Store (`Config::new`, `Config::write`, `Config::read`)

The filesystem the store touches is a single well-known path
(`CONFIG_PATH`); its state is the optional byte content of that file.
IO failure of the directory/file creation inside `Config::write` is a
nondeterministic input, threaded as the boolean `wOk`.
-/

/-- The state of the persisted document at `CONFIG_PATH`: `none` when
the file does not exist. -/
structure FsState where
  file : Option (List Char)
  deriving DecidableEq

/-- `Config::write` from src/config.rs: create the parent directory and
the file and write the serialized bytes.  `wOk = false` models any IO
failure of those calls (`create_dir`, `File::create`, `write_all`), in
which case the filesystem is unchanged and the error is returned. -/
def Config.write (c : Config) (_fs : FsState) (wOk : Bool) : Except (List Char) FsState :=
  if wOk then .ok { file := some c.serialize }
  else .error (chars "io error")

/-- `Config::read` from src/config.rs: open and read the file, then
`toml::from_slice`; a missing file or an undeserializable document is
an error. -/
def Config.read (fs : FsState) : Except (List Char) Config :=
  match fs.file with
  | none => .error (chars "failed to open config file")
  | some bytes =>
    match Config.deserialize bytes with
    | some c => .ok c
    | none => .error (chars "failed to deserialize config")

/-- `Config::new` from src/config.rs: if the file does not exist,
build the default config, attempt to write it (a failure is only
logged), and return the default; otherwise read the file, falling back
to the default on a read error.  Returns the config together with the
resulting filesystem state. -/
def Config.new (fs : FsState) (wOk : Bool) : Config × FsState :=
  match fs.file with
  | none =>
    let config := Config.default
    match Config.write config fs wOk with
    | .ok fs' => (config, fs')
    | .error _ => (config, fs)
  | some _ =>
    match Config.read fs with
    | .ok config => (config, fs)
    | .error _ => (Config.default, fs)

/-!
## Command Router (`main` from src/main.rs)

The subcommand dispatch after logging setup: `daemon` requires
`geteuid() == 0` and otherwise fails with "must be run as root" before
`daemon::daemon` is ever entered; every other subcommand goes to the
client.  The daemon and client bodies live outside src/main.rs and are
threaded as function parameters.  `mainExit` is the final `match res`:
exit status 0 on `Ok`, and on `Err` the message goes to the error
stream/log and the process exits with status 1.
-/

/-- A parsed subcommand of the CLI (the `matches.subcommand()`
dispatch). -/
inductive Subcommand
  | daemon (experimental : Bool)
  | client (name : List Char)
  deriving DecidableEq

/-- The `match matches.subcommand()` dispatch in `main`. -/
def mainDispatch (euid : Nat) (cmd : Subcommand)
    (daemonImpl : Bool → Except (List Char) Unit)
    (clientImpl : List Char → Except (List Char) Unit) : Except (List Char) Unit :=
  match cmd with
  | .daemon experimental =>
    if euid = 0 then daemonImpl experimental
    else .error (chars "must be run as root")
  | .client name => clientImpl name

/-- The final `match res` of `main`: the exit status of the process and
the message printed to the error stream, if any. -/
def mainExit : Except (List Char) Unit → Nat × Option (List Char)
  | .ok _ => (0, none)
  | .error e => (1, some e)

/-!
## Theorems for the easier claims
-/

/-- C5: for every Profile variant `p`, parsing the canonical string
identifier of `p` yields `p` back, and `identifierOf` (the
`From<Profile> for &str` impl, `Profile.toStr`) is total (it is a Lean
function) and injective over the three variants. -/
theorem profile_identifier_roundtrip (p q : Profile) :
    Profile.fromStr (Profile.toStr p) = some p ∧
      (Profile.toStr p = Profile.toStr q → p = q) := by
  cases p <;> cases q <;> decide

/-- Witness for C5 at the `Battery` variant. -/
theorem profile_identifier_roundtrip_witness :
    Profile.fromStr (Profile.toStr .Battery) = some .Battery ∧ Profile.Battery = Profile.Battery :=
  ⟨(profile_identifier_roundtrip .Battery .Battery).1,
   (profile_identifier_roundtrip .Battery .Battery).2 (by decide)⟩

/-- C6: every string that is not exactly one of the three canonical
profile identifiers — including case variants and strings with
surrounding whitespace — fails to parse as a `Profile` (serde's
unknown-variant error, the spec's `InvalidProfile`) rather than
coercing to some variant. -/
theorem profile_parse_rejects_noncanonical (s : List Char)
    (h : s ∉ [chars "battery", chars "balanced", chars "performance"]) :
    Profile.fromStr s = none := by
  simp only [List.mem_cons, List.mem_singleton, not_or] at h
  simp [Profile.fromStr, h.1, h.2.1, h.2.2]

/-- Witness for C6 at a case variant and a whitespace variant. -/
theorem profile_parse_rejects_noncanonical_witness :
    Profile.fromStr (chars "Battery") = none ∧ Profile.fromStr (chars " battery") = none :=
  ⟨profile_parse_rejects_noncanonical (chars "Battery") (by decide),
   profile_parse_rejects_noncanonical (chars " battery") (by decide)⟩

/-- C7: the compiled-in default TuningDescriptor of each profile
matches the documented table (the spec's PowerSaver is the source's
`battery` profile): battery has backlight keyboard 0 / screen 10 and
pstate 0/50 with turbo off, balanced 50/40 and 0/100 with turbo on,
performance 100/100 and 50/100 with turbo on, and no profile has a
default script. -/
theorem default_tuning_descriptors :
    ConfigProfiles.default =
      { battery :=
          { backlight := some { keyboard := 0, screen := 10 }
            pstate := some { min := 0, max := 50, turbo := false }
            script := none }
        balanced :=
          { backlight := some { keyboard := 50, screen := 40 }
            pstate := some { min := 0, max := 100, turbo := true }
            script := none }
        performance :=
          { backlight := some { keyboard := 100, screen := 100 }
            pstate := some { min := 50, max := 100, turbo := true }
            script := none } } := by
  decide

/-- C3: when the persisted document exists but fails to deserialize,
`Config::new` returns the compiled-in default config and leaves the
filesystem — in particular the on-disk document — byte-for-byte
unchanged (no write is performed on this path). -/
theorem load_parse_failure_returns_default (fs : FsState) (wOk : Bool) (bytes : List Char)
    (hfile : fs.file = some bytes) (hparse : Config.deserialize bytes = none) :
    Config.new fs wOk = (Config.default, fs) := by
  simp [Config.new, Config.read, hfile, hparse]

/-- Witness for C3: a one-byte document `[` is unparsable and is left
in place. -/
theorem load_parse_failure_returns_default_witness :
    Config.new ⟨some (chars "[")⟩ true = (Config.default, ⟨some (chars "[")⟩) :=
  load_parse_failure_returns_default ⟨some (chars "[")⟩ true (chars "[") rfl (by decide)

/-- C4: when no persisted document exists, `Config::new` synthesizes
the compiled-in default config, attempts to persist it, and returns
that default regardless of whether the write succeeds (`wOk = true`,
the serialized default is now on disk) or fails (`wOk = false`, the
failure is only logged and the filesystem is unchanged). -/
theorem load_missing_file_returns_default (fs : FsState) (wOk : Bool)
    (hfile : fs.file = none) :
    (Config.new fs wOk).1 = Config.default ∧
    (wOk = true → (Config.new fs wOk).2 = ⟨some Config.default.serialize⟩) ∧
    (wOk = false → (Config.new fs wOk).2 = fs) := by
  cases wOk <;> simp [Config.new, Config.write, hfile]

/-- Witness for C4 with a failing write. -/
theorem load_missing_file_returns_default_witness :
    (Config.new ⟨none⟩ false).1 = Config.default :=
  (load_missing_file_returns_default ⟨none⟩ false rfl).1

/-- C9: the `daemon` subcommand requires euid 0: without it the
dispatch never enters the daemon body (the result does not depend on
it) and produces the `PermissionDenied`-style error
`must be run as root`, which exits with status 1 and goes to the error
stream; in general every surfaced error exits with status 1 and
success exits with status 0. -/
theorem daemon_requires_root (euid : Nat) (experimental : Bool)
    (daemonImpl daemonImpl' : Bool → Except (List Char) Unit)
    (clientImpl : List Char → Except (List Char) Unit)
    (h : euid ≠ 0) :
    mainDispatch euid (.daemon experimental) daemonImpl clientImpl
      = .error (chars "must be run as root") ∧
    mainDispatch euid (.daemon experimental) daemonImpl clientImpl
      = mainDispatch euid (.daemon experimental) daemonImpl' clientImpl ∧
    mainExit (mainDispatch euid (.daemon experimental) daemonImpl clientImpl)
      = (1, some (chars "must be run as root")) ∧
    (∀ e, mainExit (.error e) = (1, some e)) ∧
    mainExit (.ok ()) = (0, none) := by
  simp [mainDispatch, mainExit, h]

/-- Witness for C9 at euid 1000. -/
theorem daemon_requires_root_witness :
    mainDispatch 1000 (.daemon false) (fun _ => .ok ()) (fun _ => .ok ())
      = .error (chars "must be run as root") :=
  (daemon_requires_root 1000 false (fun _ => .ok ()) (fun _ => .ok ())
    (fun _ => .ok ()) (by decide)).1

/-- C2 counterexample: deserializing a document whose thresholds
section sets `critical = 60`, `normal = 50` (so `critical ≥ normal`)
succeeds and yields exactly those values — no `InvalidThresholds`
rejection exists in the code. -/
theorem thresholds_accept_inverted_counterexample :
    (Config.deserialize (chars "[thresholds]\ncritical = 60\nnormal = 50\n")).map
      (fun c => c.thresholds) = some { critical := 60, normal := 50 } ∧
    50 ≤ (60 : Nat) := by
  decide

/-- C2 amended: construction and deserialization of `ConfigThresholds`
perform no validation at all — even when `critical ≥ normal`, plain
construction keeps both fields and deserialization of a thresholds
section carrying those values succeeds with exactly those values. -/
theorem thresholds_construction_unvalidated (critical normal : Nat)
    (_h : normal ≤ critical) :
    (ConfigThresholds.mk critical normal).critical = critical ∧
    (ConfigThresholds.mk critical normal).normal = normal ∧
    ConfigThresholds.fromPairs
        [(chars "critical", .scalar (.int critical)), (chars "normal", .scalar (.int normal))]
      = some { critical := critical, normal := normal } := by
  exact ⟨rfl, rfl, rfl⟩

/-- Witness for C2's amended theorem at critical 60, normal 50. -/
theorem thresholds_construction_unvalidated_witness :
    ConfigThresholds.fromPairs
        [(chars "critical", .scalar (.int 60)), (chars "normal", .scalar (.int 50))]
      = some { critical := 60, normal := 50 } :=
  (thresholds_construction_unvalidated 60 50 (by decide)).2.2

/-!
## Lemma kit: digit rendering, splitting, trimming
-/

theorem digitChar_mem (n : Nat) : digitChar n ∈ chars "0123456789" := by
  match n with
  | 0 => decide
  | 1 => decide
  | 2 => decide
  | 3 => decide
  | 4 => decide
  | 5 => decide
  | 6 => decide
  | 7 => decide
  | 8 => decide
  | _ + 9 => exact (by decide : '9' ∈ chars "0123456789")

theorem natReprAux_mem_digits (fuel : Nat) :
    ∀ n, ∀ c ∈ natReprAux fuel n, c ∈ chars "0123456789" := by
  induction fuel with
  | zero => intro n c hc; simp [natReprAux] at hc
  | succ fuel ih =>
    intro n c hc
    unfold natReprAux at hc
    split at hc
    · simp at hc; subst hc; exact digitChar_mem n
    · rcases List.mem_append.1 hc with h | h
      · exact ih _ _ h
      · simp at h; subst h; exact digitChar_mem _

theorem natRepr_mem_digits (n : Nat) : ∀ c ∈ natRepr n, c ∈ chars "0123456789" :=
  natReprAux_mem_digits (n + 1) n

/-- The characters a decimal rendering can contain are none of the
syntactically meaningful bytes of the document format. -/
theorem digit_char_props : ∀ c ∈ chars "0123456789",
    isSpaceChar c = false ∧ c ≠ nl ∧ c ≠ qc ∧ c ≠ ',' ∧ c ≠ '#' ∧
      c ≠ '[' ∧ c ≠ '\x7b' ∧ c ≠ '=' := by
  decide

theorem natRepr_ne_nil (n : Nat) : natRepr n ≠ [] := by
  unfold natRepr natReprAux
  split <;> simp

theorem nl_not_mem_natRepr (n : Nat) : nl ∉ natRepr n := fun h =>
  ((digit_char_props _ (natRepr_mem_digits n _ h)).2.1 rfl).elim

theorem natRepr_head_digit (n : Nat) :
    ∀ c, (natRepr n).head? = some c → c ∈ chars "0123456789" :=
  fun _ hc => natRepr_mem_digits n _ (List.mem_of_mem_head? hc)

theorem natRepr_getLast_digit (n : Nat) :
    ∀ c, (natRepr n).getLast? = some c → c ∈ chars "0123456789" :=
  fun _ hc => natRepr_mem_digits n _ (List.mem_of_mem_getLast? hc)

theorem splitOnChar_not_mem (sep : Char) (l : List Char) (h : sep ∉ l) :
    splitOnChar sep l = [l] := by
  induction l with
  | nil => rfl
  | cons c cs ih =>
    simp only [List.mem_cons, not_or] at h
    simp only [splitOnChar]
    rw [if_neg (fun hc => h.1 hc.symm), ih h.2]
    rfl

theorem splitOnChar_append (sep : Char) (l r : List Char) (h : sep ∉ l) :
    splitOnChar sep (l ++ sep :: r) = l :: splitOnChar sep r := by
  induction l with
  | nil => simp [splitOnChar]
  | cons c cs ih =>
    simp only [List.mem_cons, not_or] at h
    rw [List.cons_append]
    simp only [splitOnChar]
    rw [if_neg (fun hc => h.1 hc.symm), ih h.2]
    rfl

theorem splitOnChar_flatten (sep : Char) (ls : List (List Char))
    (h : ∀ l ∈ ls, sep ∉ l) :
    splitOnChar sep ((ls.map (fun l => l ++ [sep])).flatten) = ls ++ [[]] := by
  induction ls with
  | nil => rfl
  | cons l rest ih =>
    rw [List.map_cons, List.flatten_cons, List.append_assoc, List.singleton_append,
      splitOnChar_append sep l _ (h l (List.mem_cons_self l rest)),
      ih (fun x hx => h x (List.mem_cons_of_mem l hx)), List.cons_append]

theorem splitFirst_append (sep : Char) (pre suf : List Char) (h : sep ∉ pre) :
    splitFirst sep (pre ++ sep :: suf) = some (pre, suf) := by
  induction pre with
  | nil => simp [splitFirst]
  | cons c cs ih =>
    simp only [List.mem_cons, not_or] at h
    rw [List.cons_append]
    unfold splitFirst
    rw [if_neg (fun hc => h.1 hc.symm), ih h.2]
    rfl

theorem dropWhile_eq_self_of_head (p : Char → Bool) (l : List Char)
    (h : ∀ c, l.head? = some c → p c = false) : l.dropWhile p = l := by
  cases l with
  | nil => rfl
  | cons a t => simp [List.dropWhile_cons, h a rfl]

theorem trimSpaces_eq_self (l : List Char)
    (h1 : ∀ c, l.head? = some c → isSpaceChar c = false)
    (h2 : ∀ c, l.getLast? = some c → isSpaceChar c = false) :
    trimSpaces l = l := by
  unfold trimSpaces
  rw [dropWhile_eq_self_of_head _ _ h1,
    dropWhile_eq_self_of_head _ _ (fun c hc => h2 c (by rwa [List.head?_reverse] at hc)),
    List.reverse_reverse]

theorem trimSpaces_cons_space (l : List Char) : trimSpaces (' ' :: l) = trimSpaces l := by
  have hdw : List.dropWhile isSpaceChar (' ' :: l) = List.dropWhile isSpaceChar l := by
    simp [List.dropWhile_cons, isSpaceChar]
  unfold trimSpaces
  rw [hdw]

theorem trimSpaces_concat_space (l : List Char) : trimSpaces (l ++ [' ']) = trimSpaces l := by
  unfold trimSpaces
  rw [List.dropWhile_append]
  by_cases h : (List.dropWhile isSpaceChar l).isEmpty
  · rw [if_pos h, List.isEmpty_iff.1 h]
    simp [List.dropWhile_cons, isSpaceChar]
  · rw [if_neg h, List.reverse_append]
    have : List.dropWhile isSpaceChar ([' '].reverse ++ (List.dropWhile isSpaceChar l).reverse)
        = List.dropWhile isSpaceChar (List.dropWhile isSpaceChar l).reverse := by
      simp [List.dropWhile_cons, isSpaceChar]
    rw [this]

theorem charDigit_digitChar (n : Nat) (h : n < 10) : charDigit (digitChar n) = some n := by
  interval_cases n <;> decide

theorem readNatFrom_append (acc : Nat) (xs ys : List Char) :
    readNatFrom acc (xs ++ ys) = (readNatFrom acc xs).bind (fun m => readNatFrom m ys) := by
  induction xs generalizing acc with
  | nil => rfl
  | cons c cs ih =>
    rw [List.cons_append]
    cases hcd : charDigit c with
    | none => simp [readNatFrom, hcd]
    | some d => simp [readNatFrom, hcd, ih]

theorem readNatFrom_natReprAux (fuel : Nat) :
    ∀ n acc, n < fuel →
      readNatFrom acc (natReprAux fuel n)
        = some (acc * 10 ^ (natReprAux fuel n).length + n) := by
  induction fuel with
  | zero => intro n _ h; exact absurd h (Nat.not_lt_zero n)
  | succ fuel ih =>
    intro n acc h
    by_cases h10 : n < 10
    · simp only [natReprAux, if_pos h10]
      simp [readNatFrom, charDigit_digitChar n h10]
    · simp only [natReprAux, if_neg h10]
      rw [readNatFrom_append, ih (n / 10) acc (by omega)]
      simp only [Option.some_bind]
      rw [show readNatFrom (acc * 10 ^ (natReprAux fuel (n / 10)).length + n / 10)
            [digitChar (n % 10)]
          = some ((acc * 10 ^ (natReprAux fuel (n / 10)).length + n / 10) * 10 + n % 10) by
        simp [readNatFrom, charDigit_digitChar (n % 10) (Nat.mod_lt n (by omega))]]
      rw [List.length_append, List.length_singleton, pow_succ, ← Nat.mul_assoc]
      congr 1
      generalize acc * 10 ^ (natReprAux fuel (n / 10)).length = y
      omega

theorem readNat_natRepr (n : Nat) : readNat (natRepr n) = some n := by
  unfold readNat
  rw [if_neg (natRepr_ne_nil n)]
  unfold natRepr
  rw [readNatFrom_natReprAux (n + 1) n 0 (Nat.lt_succ_self n)]
  simp

theorem parseScalar_cons_space (cs : List Char) : parseScalar (' ' :: cs) = parseScalar cs := by
  unfold parseScalar
  rw [trimSpaces_cons_space]

theorem parseScalar_concat_space (cs : List Char) :
    parseScalar (cs ++ [' ']) = parseScalar cs := by
  unfold parseScalar
  rw [trimSpaces_concat_space]

theorem trimSpaces_natRepr (n : Nat) : trimSpaces (natRepr n) = natRepr n :=
  trimSpaces_eq_self _
    (fun c hc => (digit_char_props c (natRepr_head_digit n c hc)).1)
    (fun c hc => (digit_char_props c (natRepr_getLast_digit n c hc)).1)

theorem parseScalar_natRepr (n : Nat) : parseScalar (natRepr n) = some (.int n) := by
  unfold parseScalar
  rw [trimSpaces_natRepr]
  rw [if_neg (fun hq => (digit_char_props qc (natRepr_head_digit n qc hq)).2.2.1 rfl)]
  rw [if_neg (fun ht => by
    have := natRepr_head_digit n
    rw [ht] at this
    exact absurd (this 't' rfl) (by decide))]
  rw [if_neg (fun hf => by
    have := natRepr_head_digit n
    rw [hf] at this
    exact absurd (this 'f' rfl) (by decide))]
  rw [readNat_natRepr]
  rfl

theorem parseScalar_quoted (s : List Char) (h : qc ∉ s) :
    parseScalar (qc :: (s ++ [qc])) = some (.str s) := by
  have hlast : (qc :: (s ++ [qc])).getLast? = some qc := by
    rw [← List.cons_append]
    exact List.getLast?_concat _
  have htrim : trimSpaces (qc :: (s ++ [qc])) = qc :: (s ++ [qc]) :=
    trimSpaces_eq_self _
      (fun c hc => by
        simp only [List.head?_cons, Option.some.injEq] at hc
        subst hc; decide)
      (fun c hc => by
        rw [hlast] at hc
        simp only [Option.some.injEq] at hc
        subst hc; decide)
  simp only [parseScalar]
  rw [htrim]
  rw [if_pos (show (qc :: (s ++ [qc])).head? = some qc from rfl)]
  rw [if_pos ⟨hlast, by simp, by simpa [List.dropLast_concat] using h⟩]
  simp [List.dropLast_concat]

theorem parseValue_of_scalar (cs : List Char)
    (h : ∀ c, (trimSpaces cs).head? = some c → c ≠ '\x7b') :
    parseValue cs = (parseScalar cs).map .scalar := by
  unfold parseValue
  rw [if_neg (fun heq => h _ heq rfl)]

theorem parseValue_inline (w content : List Char) (hw : w = content ++ ['\x7d']) :
    parseValue (' ' :: ('\x7b' :: w))
      = (parseItems (splitOnChar ',' content)).map .table := by
  subst hw
  have hlast : ('\x7b' :: (content ++ ['\x7d'])).getLast? = some '\x7d' := by
    rw [← List.cons_append]
    exact List.getLast?_concat _
  have htrim : trimSpaces ('\x7b' :: (content ++ ['\x7d'])) = '\x7b' :: (content ++ ['\x7d']) :=
    trimSpaces_eq_self _
      (fun c hc => by
        simp only [List.head?_cons, Option.some.injEq] at hc
        subst hc; decide)
      (fun c hc => by
        rw [hlast] at hc
        simp only [Option.some.injEq] at hc
        subst hc; decide)
  simp only [parseValue]
  rw [trimSpaces_cons_space, htrim]
  rw [if_pos (show ('\x7b' :: (content ++ ['\x7d'])).head? = some '\x7b' from rfl)]
  rw [if_pos ⟨hlast, by simp⟩]
  simp [List.dropLast_concat]

theorem trimSpaces_eq_self_of_cons (c0 : Char) (l : List Char) (h0 : isSpaceChar c0 = false)
    (h2 : ∀ c, (c0 :: l).getLast? = some c → isSpaceChar c = false) :
    trimSpaces (c0 :: l) = c0 :: l :=
  trimSpaces_eq_self _
    (fun c hc => by
      simp only [List.head?_cons, Option.some.injEq] at hc
      subst hc
      exact h0)
    h2

theorem getLast_not_space_append_natRepr (a : List Char) (n : Nat) :
    ∀ c, (a ++ natRepr n).getLast? = some c → isSpaceChar c = false := fun c hc => by
  rw [List.getLast?_append_of_ne_nil a (natRepr_ne_nil n)] at hc
  exact (digit_char_props c (natRepr_getLast_digit n c hc)).1

theorem head_props_cons (c0 : Char) (l : List Char) (h : c0 ≠ '#' ∧ c0 ≠ '[') :
    ∀ c, (c0 :: l).head? = some c → (c ≠ '#' ∧ c ≠ '[') := fun c hc => by
  simp only [List.head?_cons, Option.some.injEq] at hc
  subst hc
  exact h

/-- Generic evaluation of `parseLine` on a well-formed `key = value`
line. -/
theorem parseLine_kv_gen (k v : List Char)
    (htrim : trimSpaces (k ++ '=' :: v) = k ++ '=' :: v)
    (hh : ∀ c, (k ++ '=' :: v).head? = some c → (c ≠ '#' ∧ c ≠ '['))
    (hkeq : '=' ∉ k)
    (hkey : trimSpaces k ≠ []) :
    parseLine (k ++ '=' :: v)
      = (parseValue v).map (fun w => .keyval (trimSpaces k) w) := by
  simp only [parseLine]
  rw [htrim]
  rw [if_neg (by simp : ¬(k ++ '=' :: v = []))]
  rw [if_neg (fun heq => (hh _ heq).1 rfl)]
  rw [if_neg (fun heq => (hh _ heq).2 rfl)]
  rw [splitFirst_append '=' k v hkeq]
  simp [hkey]

theorem parseValue_sp_natRepr (n : Nat) :
    parseValue (' ' :: natRepr n) = some (.scalar (.int n)) := by
  rw [parseValue_of_scalar _ (fun c hc => by
    rw [trimSpaces_cons_space, trimSpaces_natRepr] at hc
    exact (digit_char_props c (natRepr_head_digit n c hc)).2.2.2.2.2.2.1)]
  rw [parseScalar_cons_space, parseScalar_natRepr]
  rfl

theorem parseLine_crtical (n : Nat) :
    parseLine (chars "crtical = " ++ natRepr n)
      = some (.keyval (chars "crtical") (.scalar (.int n))) := by
  have h := parseLine_kv_gen (chars "crtical ") (' ' :: natRepr n)
    (trimSpaces_eq_self_of_cons 'c' _ (by decide)
      (getLast_not_space_append_natRepr (chars "crtical = ") n))
    (head_props_cons 'c' _ (by decide))
    (by decide) (by decide)
  rw [parseValue_sp_natRepr] at h
  exact h

theorem parseLine_normal (n : Nat) :
    parseLine (chars "normal = " ++ natRepr n)
      = some (.keyval (chars "normal") (.scalar (.int n))) := by
  have h := parseLine_kv_gen (chars "normal ") (' ' :: natRepr n)
    (trimSpaces_eq_self_of_cons 'n' _ (by decide)
      (getLast_not_space_append_natRepr (chars "normal = ") n))
    (head_props_cons 'n' _ (by decide))
    (by decide) (by decide)
  rw [parseValue_sp_natRepr] at h
  exact h

theorem parseLine_battery_profile (p : Profile) :
    parseLine (chars "battery = " ++ [qc] ++ p.toStr ++ [qc])
      = some (.keyval (chars "battery") (.scalar (.str p.toStr))) := by
  cases p <;> decide

theorem parseLine_ac_profile (p : Profile) :
    parseLine (chars "ac = " ++ [qc] ++ p.toStr ++ [qc])
      = some (.keyval (chars "ac") (.scalar (.str p.toStr))) := by
  cases p <;> decide

theorem parseLine_last_profile (p : Profile) :
    parseLine (chars "last_profile = " ++ [qc] ++ p.toStr ++ [qc])
      = some (.keyval (chars "last_profile") (.scalar (.str p.toStr))) := by
  cases p <;> decide

theorem parseLine_script (s : List Char) (hq : qc ∉ s) :
    parseLine (chars "battery = " ++ [qc] ++ s ++ [qc])
      = some (.keyval (chars "battery") (.scalar (.str s))) := by
  have hlast : ∀ c, (chars "battery " ++ '=' :: (' ' :: (qc :: (s ++ [qc])))).getLast? = some c →
      isSpaceChar c = false := fun c hc => by
    rw [show chars "battery " ++ '=' :: (' ' :: (qc :: (s ++ [qc])))
        = (chars "battery = " ++ qc :: s) ++ [qc] from rfl] at hc
    rw [List.getLast?_concat] at hc
    simp only [Option.some.injEq] at hc
    subst hc
    decide
  have h := parseLine_kv_gen (chars "battery ") (' ' :: (qc :: (s ++ [qc])))
    (trimSpaces_eq_self_of_cons 'b' _ (by decide) hlast)
    (head_props_cons 'b' _ (by decide))
    (by decide) (by decide)
  rw [parseValue_of_scalar _ (fun c hc => by
    rw [trimSpaces_cons_space] at hc
    rw [trimSpaces_eq_self_of_cons qc _ (by decide) (fun c hc2 => by
      rw [show (qc :: (s ++ [qc])).getLast? = some qc from by
        rw [← List.cons_append]; exact List.getLast?_concat _] at hc2
      simp only [Option.some.injEq] at hc2
      subst hc2
      decide)] at hc
    simp only [List.head?_cons, Option.some.injEq] at hc
    subst hc
    decide)] at h
  rw [parseScalar_cons_space, parseScalar_quoted s hq] at h
  exact h

theorem parseItemKV_int (kpre : List Char) (n : Nat)
    (hkeq : '=' ∉ kpre) (hkey : trimSpaces kpre ≠ []) :
    parseItemKV (kpre ++ '=' :: (' ' :: natRepr n)) = some (trimSpaces kpre, .int n) := by
  unfold parseItemKV
  rw [splitFirst_append '=' _ _ hkeq]
  simp [hkey, parseScalar_cons_space, parseScalar_natRepr]

theorem parseItemKV_int_sp (kpre : List Char) (n : Nat)
    (hkeq : '=' ∉ kpre) (hkey : trimSpaces kpre ≠ []) :
    parseItemKV (kpre ++ '=' :: (' ' :: (natRepr n ++ [' ']))) = some (trimSpaces kpre, .int n) := by
  unfold parseItemKV
  rw [splitFirst_append '=' _ _ hkeq]
  simp [hkey, parseScalar_cons_space, parseScalar_concat_space, parseScalar_natRepr]

theorem comma_not_mem_append_natRepr (a : List Char) (n : Nat) (ha : ',' ∉ a) :
    ',' ∉ a ++ natRepr n := fun h => by
  rcases List.mem_append.1 h with h | h
  · exact ha h
  · exact (digit_char_props _ (natRepr_mem_digits n _ h)).2.2.2.1 rfl

theorem parseItems_nil : parseItems [] = some [] := rfl

theorem parseItems_cons_some (p : List Char) (ps : List (List Char))
    (kv : List Char × TomlScalar) (h : parseItemKV p = some kv) :
    parseItems (p :: ps) = (parseItems ps).map (kv :: ·) := by
  simp [parseItems, h]

theorem parseLine_backlight (k s : Nat) :
    parseLine (chars "backlight = \x7b keyboard = " ++ natRepr k ++ chars ", screen = "
        ++ natRepr s ++ chars " \x7d")
      = some (.keyval (chars "backlight")
          (.table [(chars "keyboard", .int k), (chars "screen", .int s)])) := by
  have h1 : chars "backlight = \x7b keyboard = " ++ natRepr k ++ chars ", screen = "
        ++ natRepr s ++ chars " \x7d"
      = chars "backlight = \x7b keyboard = "
        ++ (natRepr k ++ (chars ", screen = " ++ (natRepr s ++ chars " \x7d"))) := by
    simp [List.append_assoc]
  have hgl : (chars "backlight = \x7b keyboard = " ++ (natRepr k ++ (chars ", screen = "
      ++ (natRepr s ++ chars " \x7d")))).getLast? = some '\x7d' := by
    rw [show chars "backlight = \x7b keyboard = " ++ (natRepr k ++ (chars ", screen = "
        ++ (natRepr s ++ chars " \x7d")))
      = (chars "backlight = \x7b keyboard = " ++ (natRepr k ++ (chars ", screen = "
        ++ (natRepr s ++ [' '])))) ++ ['\x7d'] from by
      simp [List.append_assoc, (by decide : chars " \x7d" = [' '] ++ ['\x7d'])]]
    exact List.getLast?_concat _
  have htrim : trimSpaces (chars "backlight = \x7b keyboard = " ++ (natRepr k
        ++ (chars ", screen = " ++ (natRepr s ++ chars " \x7d"))))
      = chars "backlight = \x7b keyboard = " ++ (natRepr k
        ++ (chars ", screen = " ++ (natRepr s ++ chars " \x7d"))) := by
    apply trimSpaces_eq_self
    · intro c hc
      rw [show (chars "backlight = \x7b keyboard = " ++ (natRepr k ++ (chars ", screen = "
          ++ (natRepr s ++ chars " \x7d")))).head? = some 'b' from rfl] at hc
      simp only [Option.some.injEq] at hc
      subst hc
      decide
    · intro c hc
      rw [hgl] at hc
      simp only [Option.some.injEq] at hc
      subst hc
      decide
  have hv := parseLine_kv_gen (chars "backlight ")
    (' ' :: ('\x7b' :: (chars " keyboard = "
      ++ (natRepr k ++ (chars ", screen = " ++ (natRepr s ++ chars " \x7d"))))))
    htrim
    (head_props_cons 'b' _ (by decide))
    (by decide) (by decide)
  rw [parseValue_inline _
    (chars " keyboard = " ++ (natRepr k ++ (chars ", screen = " ++ (natRepr s ++ [' ']))))
    (by simp [List.append_assoc, (by decide : chars " \x7d" = [' '] ++ ['\x7d'])])] at hv
  rw [show chars " keyboard = " ++ (natRepr k ++ (chars ", screen = " ++ (natRepr s ++ [' '])))
      = (chars " keyboard = " ++ natRepr k)
        ++ ',' :: (chars " screen = " ++ (natRepr s ++ [' '])) from by
    simp [List.append_assoc, (by decide : chars ", screen = " = ',' :: chars " screen = ")]] at hv
  rw [splitOnChar_append ',' _ _ (comma_not_mem_append_natRepr _ k (by decide))] at hv
  rw [splitOnChar_not_mem ',' _ (fun h => by
    rcases List.mem_append.1 h with h | h
    · exact absurd h (by decide)
    · rcases List.mem_append.1 h with h | h
      · exact (digit_char_props _ (natRepr_mem_digits s _ h)).2.2.2.1 rfl
      · simp at h)] at hv
  rw [parseItems_cons_some (chars " keyboard = " ++ natRepr k) _ _
    (show parseItemKV (chars " keyboard = " ++ natRepr k)
        = some (trimSpaces (chars " keyboard "), .int k) from
      parseItemKV_int (chars " keyboard ") k (by decide) (by decide))] at hv
  rw [parseItems_cons_some (chars " screen = " ++ (natRepr s ++ [' '])) _ _
    (show parseItemKV (chars " screen = " ++ (natRepr s ++ [' ']))
        = some (trimSpaces (chars " screen "), .int s) from
      parseItemKV_int_sp (chars " screen ") s (by decide) (by decide))] at hv
  rw [parseItems_nil] at hv
  rw [h1]
  exact hv

theorem parseLine_pstate_true (m mx : Nat) :
    parseLine (chars "pstate = \x7b min = " ++ natRepr m ++ chars ", max = " ++ natRepr mx
        ++ chars ", turbo = true \x7d")
      = some (.keyval (chars "pstate")
          (.table [(chars "min", .int m), (chars "max", .int mx),
                   (chars "turbo", .bool true)])) := by
  have h1 : chars "pstate = \x7b min = " ++ natRepr m ++ chars ", max = " ++ natRepr mx
        ++ chars ", turbo = true \x7d"
      = chars "pstate = \x7b min = "
        ++ (natRepr m ++ (chars ", max = " ++ (natRepr mx ++ chars ", turbo = true \x7d"))) := by
    simp [List.append_assoc]
  have hgl : (chars "pstate = \x7b min = " ++ (natRepr m ++ (chars ", max = "
      ++ (natRepr mx ++ chars ", turbo = true \x7d")))).getLast? = some '\x7d' := by
    rw [show chars "pstate = \x7b min = " ++ (natRepr m ++ (chars ", max = "
        ++ (natRepr mx ++ chars ", turbo = true \x7d")))
      = (chars "pstate = \x7b min = " ++ (natRepr m ++ (chars ", max = "
        ++ (natRepr mx ++ chars ", turbo = true ")))) ++ ['\x7d'] from by
      simp [List.append_assoc,
        (by decide : chars ", turbo = true \x7d" = chars ", turbo = true " ++ ['\x7d'])]]
    exact List.getLast?_concat _
  have htrim : trimSpaces (chars "pstate = \x7b min = " ++ (natRepr m ++ (chars ", max = "
        ++ (natRepr mx ++ chars ", turbo = true \x7d"))))
      = chars "pstate = \x7b min = " ++ (natRepr m ++ (chars ", max = "
        ++ (natRepr mx ++ chars ", turbo = true \x7d"))) := by
    apply trimSpaces_eq_self
    · intro c hc
      rw [show (chars "pstate = \x7b min = " ++ (natRepr m ++ (chars ", max = "
          ++ (natRepr mx ++ chars ", turbo = true \x7d")))).head? = some 'p' from rfl] at hc
      simp only [Option.some.injEq] at hc
      subst hc
      decide
    · intro c hc
      rw [hgl] at hc
      simp only [Option.some.injEq] at hc
      subst hc
      decide
  have hv := parseLine_kv_gen (chars "pstate ")
    (' ' :: ('\x7b' :: (chars " min = "
      ++ (natRepr m ++ (chars ", max = " ++ (natRepr mx ++ chars ", turbo = true \x7d"))))))
    htrim
    (head_props_cons 'p' _ (by decide))
    (by decide) (by decide)
  rw [parseValue_inline _
    (chars " min = " ++ (natRepr m ++ (chars ", max = "
      ++ (natRepr mx ++ chars ", turbo = true "))))
    (by simp [List.append_assoc,
      (by decide : chars ", turbo = true \x7d" = chars ", turbo = true " ++ ['\x7d'])])] at hv
  rw [show chars " min = " ++ (natRepr m ++ (chars ", max = "
        ++ (natRepr mx ++ chars ", turbo = true ")))
      = (chars " min = " ++ natRepr m)
        ++ ',' :: (chars " max = " ++ (natRepr mx ++ chars ", turbo = true ")) from by
    simp [List.append_assoc, (by decide : chars ", max = " = ',' :: chars " max = ")]] at hv
  rw [splitOnChar_append ',' _ _ (comma_not_mem_append_natRepr _ m (by decide))] at hv
  rw [show chars " max = " ++ (natRepr mx ++ chars ", turbo = true ")
      = (chars " max = " ++ natRepr mx) ++ ',' :: chars " turbo = true " from by
    simp [List.append_assoc,
      (by decide : chars ", turbo = true " = ',' :: chars " turbo = true ")]] at hv
  rw [splitOnChar_append ',' _ _ (comma_not_mem_append_natRepr _ mx (by decide))] at hv
  rw [splitOnChar_not_mem ',' _ (by decide)] at hv
  rw [parseItems_cons_some (chars " min = " ++ natRepr m) _ _
    (show parseItemKV (chars " min = " ++ natRepr m)
        = some (trimSpaces (chars " min "), .int m) from
      parseItemKV_int (chars " min ") m (by decide) (by decide))] at hv
  rw [parseItems_cons_some (chars " max = " ++ natRepr mx) _ _
    (show parseItemKV (chars " max = " ++ natRepr mx)
        = some (trimSpaces (chars " max "), .int mx) from
      parseItemKV_int (chars " max ") mx (by decide) (by decide))] at hv
  rw [parseItems_cons_some (chars " turbo = true ") _ _
    (by decide : parseItemKV (chars " turbo = true ") = some (chars "turbo", .bool true))] at hv
  rw [parseItems_nil] at hv
  rw [h1]
  exact hv

theorem parseLine_pstate_false (m mx : Nat) :
    parseLine (chars "pstate = \x7b min = " ++ natRepr m ++ chars ", max = " ++ natRepr mx
        ++ chars ", turbo = false \x7d")
      = some (.keyval (chars "pstate")
          (.table [(chars "min", .int m), (chars "max", .int mx),
                   (chars "turbo", .bool false)])) := by
  have h1 : chars "pstate = \x7b min = " ++ natRepr m ++ chars ", max = " ++ natRepr mx
        ++ chars ", turbo = false \x7d"
      = chars "pstate = \x7b min = "
        ++ (natRepr m ++ (chars ", max = " ++ (natRepr mx ++ chars ", turbo = false \x7d"))) := by
    simp [List.append_assoc]
  have hgl : (chars "pstate = \x7b min = " ++ (natRepr m ++ (chars ", max = "
      ++ (natRepr mx ++ chars ", turbo = false \x7d")))).getLast? = some '\x7d' := by
    rw [show chars "pstate = \x7b min = " ++ (natRepr m ++ (chars ", max = "
        ++ (natRepr mx ++ chars ", turbo = false \x7d")))
      = (chars "pstate = \x7b min = " ++ (natRepr m ++ (chars ", max = "
        ++ (natRepr mx ++ chars ", turbo = false ")))) ++ ['\x7d'] from by
      simp [List.append_assoc,
        (by decide : chars ", turbo = false \x7d" = chars ", turbo = false " ++ ['\x7d'])]]
    exact List.getLast?_concat _
  have htrim : trimSpaces (chars "pstate = \x7b min = " ++ (natRepr m ++ (chars ", max = "
        ++ (natRepr mx ++ chars ", turbo = false \x7d"))))
      = chars "pstate = \x7b min = " ++ (natRepr m ++ (chars ", max = "
        ++ (natRepr mx ++ chars ", turbo = false \x7d"))) := by
    apply trimSpaces_eq_self
    · intro c hc
      rw [show (chars "pstate = \x7b min = " ++ (natRepr m ++ (chars ", max = "
          ++ (natRepr mx ++ chars ", turbo = false \x7d")))).head? = some 'p' from rfl] at hc
      simp only [Option.some.injEq] at hc
      subst hc
      decide
    · intro c hc
      rw [hgl] at hc
      simp only [Option.some.injEq] at hc
      subst hc
      decide
  have hv := parseLine_kv_gen (chars "pstate ")
    (' ' :: ('\x7b' :: (chars " min = "
      ++ (natRepr m ++ (chars ", max = " ++ (natRepr mx ++ chars ", turbo = false \x7d"))))))
    htrim
    (head_props_cons 'p' _ (by decide))
    (by decide) (by decide)
  rw [parseValue_inline _
    (chars " min = " ++ (natRepr m ++ (chars ", max = "
      ++ (natRepr mx ++ chars ", turbo = false "))))
    (by simp [List.append_assoc,
      (by decide : chars ", turbo = false \x7d" = chars ", turbo = false " ++ ['\x7d'])])] at hv
  rw [show chars " min = " ++ (natRepr m ++ (chars ", max = "
        ++ (natRepr mx ++ chars ", turbo = false ")))
      = (chars " min = " ++ natRepr m)
        ++ ',' :: (chars " max = " ++ (natRepr mx ++ chars ", turbo = false ")) from by
    simp [List.append_assoc, (by decide : chars ", max = " = ',' :: chars " max = ")]] at hv
  rw [splitOnChar_append ',' _ _ (comma_not_mem_append_natRepr _ m (by decide))] at hv
  rw [show chars " max = " ++ (natRepr mx ++ chars ", turbo = false ")
      = (chars " max = " ++ natRepr mx) ++ ',' :: chars " turbo = false " from by
    simp [List.append_assoc,
      (by decide : chars ", turbo = false " = ',' :: chars " turbo = false ")]] at hv
  rw [splitOnChar_append ',' _ _ (comma_not_mem_append_natRepr _ mx (by decide))] at hv
  rw [splitOnChar_not_mem ',' _ (by decide)] at hv
  rw [parseItems_cons_some (chars " min = " ++ natRepr m) _ _
    (show parseItemKV (chars " min = " ++ natRepr m)
        = some (trimSpaces (chars " min "), .int m) from
      parseItemKV_int (chars " min ") m (by decide) (by decide))] at hv
  rw [parseItems_cons_some (chars " max = " ++ natRepr mx) _ _
    (show parseItemKV (chars " max = " ++ natRepr mx)
        = some (trimSpaces (chars " max "), .int mx) from
      parseItemKV_int (chars " max ") mx (by decide) (by decide))] at hv
  rw [parseItems_cons_some (chars " turbo = false ") _ _
    (by decide : parseItemKV (chars " turbo = false ") = some (chars "turbo", .bool false))] at hv
  rw [parseItems_nil] at hv
  rw [h1]
  exact hv

theorem parseLine_pstate (m mx : Nat) (b : Bool) :
    parseLine (chars "pstate = \x7b min = " ++ natRepr m ++ chars ", max = " ++ natRepr mx
        ++ chars ", turbo = " ++ boolStr b ++ chars " \x7d")
      = some (.keyval (chars "pstate")
          (.table [(chars "min", .int m), (chars "max", .int mx),
                   (chars "turbo", .bool b)])) := by
  cases b
  · rw [show chars "pstate = \x7b min = " ++ natRepr m ++ chars ", max = " ++ natRepr mx
          ++ chars ", turbo = " ++ boolStr false ++ chars " \x7d"
        = chars "pstate = \x7b min = " ++ natRepr m ++ chars ", max = " ++ natRepr mx
          ++ chars ", turbo = false \x7d" from by
      simp [List.append_assoc, boolStr,
        (by decide : chars ", turbo = " ++ (chars "false" ++ chars " \x7d")
          = chars ", turbo = false \x7d")]]
    exact parseLine_pstate_false m mx
  · rw [show chars "pstate = \x7b min = " ++ natRepr m ++ chars ", max = " ++ natRepr mx
          ++ chars ", turbo = " ++ boolStr true ++ chars " \x7d"
        = chars "pstate = \x7b min = " ++ natRepr m ++ chars ", max = " ++ natRepr mx
          ++ chars ", turbo = true \x7d" from by
      simp [List.append_assoc, boolStr,
        (by decide : chars ", turbo = " ++ (chars "true" ++ chars " \x7d")
          = chars ", turbo = true \x7d")]]
    exact parseLine_pstate_true m mx

theorem pdl_nil (sec : List Char) : parseDocLines sec [] = some ([], sec) := rfl

theorem pdl_blank {sec l ls} (h : parseLine l = some .blank) :
    parseDocLines sec (l :: ls) = parseDocLines sec ls := by
  simp [parseDocLines, h]

theorem pdl_comment {sec l ls} (h : parseLine l = some .comment) :
    parseDocLines sec (l :: ls) = parseDocLines sec ls := by
  simp [parseDocLines, h]

theorem pdl_header {sec l ls name} (h : parseLine l = some (.header name)) :
    parseDocLines sec (l :: ls)
      = (parseDocLines name ls).map (fun r => (.header name :: r.1, r.2)) := by
  simp [parseDocLines, h]

theorem pdl_kv {sec l ls k v} (h : parseLine l = some (.keyval k v)) :
    parseDocLines sec (l :: ls)
      = (parseDocLines sec ls).map (fun r => (.kv sec k v :: r.1, r.2)) := by
  simp [parseDocLines, h]

/-- The raw items the defaults section of a serialized document parses
to. -/
def defaultsRaw (d : ConfigDefaults) : List RawItem :=
  .header (chars "defaults") ::
  .kv (chars "defaults") (chars "battery") (.scalar (.str d.battery.toStr)) ::
  .kv (chars "defaults") (chars "ac") (.scalar (.str d.ac.toStr)) ::
  .kv (chars "defaults") (chars "last_profile") (.scalar (.str d.last_profile.toStr)) ::
  (if d.experimental
    then [.kv (chars "defaults") (chars "experimental") (.scalar (.bool true))]
    else [])

/-- The raw items the threshold section of a serialized document parses
to (section `threshold`, key `crtical`). -/
def thresholdRaw (t : ConfigThresholds) : List RawItem :=
  [ .header (chars "threshold")
  , .kv (chars "threshold") (chars "crtical") (.scalar (.int t.critical))
  , .kv (chars "threshold") (chars "normal") (.scalar (.int t.normal)) ]

/-- The raw key/value items one profile section of a serialized
document parses to (note the script is recorded under the key
`battery`, as the serializer writes it). -/
def profileBodyRaw (sec : List Char) (p : ConfigProfile) : List RawItem :=
  (match p.backlight with
    | some b => [.kv sec (chars "backlight")
        (.table [(chars "keyboard", .int b.keyboard), (chars "screen", .int b.screen)])]
    | none => []) ++
  ((match p.pstate with
    | some ps => [.kv sec (chars "pstate")
        (.table [(chars "min", .int ps.min), (chars "max", .int ps.max),
                 (chars "turbo", .bool ps.turbo)])]
    | none => []) ++
  (match p.script with
    | some s => [.kv sec (chars "battery") (.scalar (.str s))]
    | none => []))

/-- The raw items one profile section of a serialized document parses
to. -/
def profileRaw (sec : List Char) (p : ConfigProfile) : List RawItem :=
  .header sec :: profileBodyRaw sec p

/-- The full raw item list a serialized document parses to. -/
def rawOf (c : Config) : List RawItem :=
  defaultsRaw c.defaults ++
  (thresholdRaw c.thresholds ++
  (profileRaw (chars "profiles.battery") c.profiles.battery ++
  (profileRaw (chars "profiles.balanced") c.profiles.balanced ++
  profileRaw (chars "profiles.performance") c.profiles.performance)))

theorem pdl_defaults (d : ConfigDefaults) (sec : List Char) (rest : List (List Char)) :
    parseDocLines sec (d.lines ++ rest)
      = (parseDocLines (chars "defaults") rest).map
          (fun r => (defaultsRaw d ++ r.1, r.2)) := by
  cases hexp : d.experimental with
  | false =>
    simp only [ConfigDefaults.lines, hexp, Bool.false_eq_true, if_false,
      List.cons_append, List.nil_append]
    rw [pdl_header (by decide : parseLine (chars "[defaults]")
        = some (.header (chars "defaults")))]
    rw [pdl_comment (by decide : parseLine
      (chars "# The default profile that will be set on disconnecting from AC.")
        = some .comment)]
    rw [pdl_kv (parseLine_battery_profile d.battery)]
    rw [pdl_comment (by decide : parseLine
      (chars "# The default profile that will be set on connecting to AC.")
        = some .comment)]
    rw [pdl_kv (parseLine_ac_profile d.ac)]
    rw [pdl_comment (by decide : parseLine
      (chars "# The last profile that was activated") = some .comment)]
    rw [pdl_kv (parseLine_last_profile d.last_profile)]
    rw [pdl_comment (by decide : parseLine
      (chars "# Uncomment to enable extra untested power-saving features")
        = some .comment)]
    rw [pdl_comment (by decide : parseLine (chars "# experimental = true") = some .comment)]
    rw [pdl_blank (by decide : parseLine ([] : List Char) = some .blank)]
    cases hr : parseDocLines (chars "defaults") rest with
    | none => simp
    | some r => simp [defaultsRaw, hexp]
  | true =>
    simp only [ConfigDefaults.lines, hexp, if_true, List.cons_append, List.nil_append]
    rw [pdl_header (by decide : parseLine (chars "[defaults]")
        = some (.header (chars "defaults")))]
    rw [pdl_comment (by decide : parseLine
      (chars "# The default profile that will be set on disconnecting from AC.")
        = some .comment)]
    rw [pdl_kv (parseLine_battery_profile d.battery)]
    rw [pdl_comment (by decide : parseLine
      (chars "# The default profile that will be set on connecting to AC.")
        = some .comment)]
    rw [pdl_kv (parseLine_ac_profile d.ac)]
    rw [pdl_comment (by decide : parseLine
      (chars "# The last profile that was activated") = some .comment)]
    rw [pdl_kv (parseLine_last_profile d.last_profile)]
    rw [pdl_comment (by decide : parseLine
      (chars "# Uncomment to enable extra untested power-saving features")
        = some .comment)]
    rw [pdl_kv (by decide : parseLine (chars "experimental = true")
        = some (.keyval (chars "experimental") (.scalar (.bool true))))]
    rw [pdl_blank (by decide : parseLine ([] : List Char) = some .blank)]
    cases hr : parseDocLines (chars "defaults") rest with
    | none => simp
    | some r => simp [defaultsRaw, hexp]

theorem pdl_thresholds (t : ConfigThresholds) (sec : List Char) (rest : List (List Char)) :
    parseDocLines sec (t.lines ++ rest)
      = (parseDocLines (chars "threshold") rest).map
          (fun r => (thresholdRaw t ++ r.1, r.2)) := by
  simp only [ConfigThresholds.lines, List.cons_append, List.nil_append]
  rw [pdl_header (by decide : parseLine (chars "[threshold]")
      = some (.header (chars "threshold")))]
  rw [pdl_comment (by decide : parseLine
    (chars "# Defines what percentage of battery is required to set the profile to "
      ++ [qc] ++ chars "battery" ++ [qc] ++ chars ".") = some .comment)]
  rw [pdl_kv (parseLine_crtical t.critical)]
  rw [pdl_comment (by decide : parseLine
    (chars "# Defines what percentage of battery is required to revert the critical change.")
      = some .comment)]
  rw [pdl_kv (parseLine_normal t.normal)]
  rw [pdl_blank (by decide : parseLine ([] : List Char) = some .blank)]
  cases hr : parseDocLines (chars "threshold") rest with
  | none => simp
  | some r => simp [thresholdRaw]

theorem pdl_profile_body (p : ConfigProfile) (sec : List Char) (rest : List (List Char))
    (hq : ∀ s, p.script = some s → qc ∉ s) :
    parseDocLines sec (p.lines ++ rest)
      = (parseDocLines sec rest).map
          (fun r => (profileBodyRaw sec p ++ r.1, r.2)) := by
  rcases hbl : p.backlight with _ | b <;>
    rcases hps : p.pstate with _ | pst <;>
    rcases hs : p.script with _ | s <;>
    simp only [ConfigProfile.lines, hbl, hps, hs, ConfigBacklight.line, ConfigPState.line,
      List.cons_append, List.nil_append, List.append_nil]
  case none.none.none =>
    rw [pdl_comment (by decide : parseLine
        (chars "# script = " ++ [qc] ++ chars "$PATH" ++ [qc]) = some .comment),
      pdl_blank (by decide : parseLine ([] : List Char) = some .blank)]
    cases hr : parseDocLines sec rest with
    | none => simp
    | some r => simp [profileBodyRaw, hbl, hps, hs]
  case none.none.some =>
    rw [pdl_kv (parseLine_script s (hq s hs)),
      pdl_blank (by decide : parseLine ([] : List Char) = some .blank)]
    cases hr : parseDocLines sec rest with
    | none => simp
    | some r => simp [profileBodyRaw, hbl, hps, hs]
  case none.some.none =>
    rw [pdl_kv (parseLine_pstate pst.min pst.max pst.turbo),
      pdl_comment (by decide : parseLine
        (chars "# script = " ++ [qc] ++ chars "$PATH" ++ [qc]) = some .comment),
      pdl_blank (by decide : parseLine ([] : List Char) = some .blank)]
    cases hr : parseDocLines sec rest with
    | none => simp
    | some r => simp [profileBodyRaw, hbl, hps, hs]
  case none.some.some =>
    rw [pdl_kv (parseLine_pstate pst.min pst.max pst.turbo),
      pdl_kv (parseLine_script s (hq s hs)),
      pdl_blank (by decide : parseLine ([] : List Char) = some .blank)]
    cases hr : parseDocLines sec rest with
    | none => simp
    | some r => simp [profileBodyRaw, hbl, hps, hs]
  case some.none.none =>
    rw [pdl_kv (parseLine_backlight b.keyboard b.screen),
      pdl_comment (by decide : parseLine
        (chars "# script = " ++ [qc] ++ chars "$PATH" ++ [qc]) = some .comment),
      pdl_blank (by decide : parseLine ([] : List Char) = some .blank)]
    cases hr : parseDocLines sec rest with
    | none => simp
    | some r => simp [profileBodyRaw, hbl, hps, hs]
  case some.none.some =>
    rw [pdl_kv (parseLine_backlight b.keyboard b.screen),
      pdl_kv (parseLine_script s (hq s hs)),
      pdl_blank (by decide : parseLine ([] : List Char) = some .blank)]
    cases hr : parseDocLines sec rest with
    | none => simp
    | some r => simp [profileBodyRaw, hbl, hps, hs]
  case some.some.none =>
    rw [pdl_kv (parseLine_backlight b.keyboard b.screen),
      pdl_kv (parseLine_pstate pst.min pst.max pst.turbo),
      pdl_comment (by decide : parseLine
        (chars "# script = " ++ [qc] ++ chars "$PATH" ++ [qc]) = some .comment),
      pdl_blank (by decide : parseLine ([] : List Char) = some .blank)]
    cases hr : parseDocLines sec rest with
    | none => simp
    | some r => simp [profileBodyRaw, hbl, hps, hs]
  case some.some.some =>
    rw [pdl_kv (parseLine_backlight b.keyboard b.screen),
      pdl_kv (parseLine_pstate pst.min pst.max pst.turbo),
      pdl_kv (parseLine_script s (hq s hs)),
      pdl_blank (by decide : parseLine ([] : List Char) = some .blank)]
    cases hr : parseDocLines sec rest with
    | none => simp
    | some r => simp [profileBodyRaw, hbl, hps, hs]

theorem pdl_profiles (ps : ConfigProfiles) (sec : List Char) (rest : List (List Char))
    (hq1 : ∀ s, ps.battery.script = some s → qc ∉ s)
    (hq2 : ∀ s, ps.balanced.script = some s → qc ∉ s)
    (hq3 : ∀ s, ps.performance.script = some s → qc ∉ s) :
    parseDocLines sec (ps.lines ++ rest)
      = (parseDocLines (chars "profiles.performance") rest).map
          (fun r => ((profileRaw (chars "profiles.battery") ps.battery ++
                      (profileRaw (chars "profiles.balanced") ps.balanced ++
                       profileRaw (chars "profiles.performance") ps.performance)) ++ r.1,
                     r.2)) := by
  simp only [ConfigProfiles.lines, List.append_assoc, List.cons_append, List.singleton_append,
    List.nil_append]
  rw [pdl_header (by decide : parseLine (chars "[profiles.battery]")
      = some (.header (chars "profiles.battery")))]
  rw [pdl_profile_body ps.battery _ _ hq1]
  rw [pdl_header (by decide : parseLine (chars "[profiles.balanced]")
      = some (.header (chars "profiles.balanced")))]
  rw [pdl_profile_body ps.balanced _ _ hq2]
  rw [pdl_header (by decide : parseLine (chars "[profiles.performance]")
      = some (.header (chars "profiles.performance")))]
  rw [pdl_profile_body ps.performance _ _ hq3]
  cases hr : parseDocLines (chars "profiles.performance") rest with
  | none => simp
  | some r => simp [profileRaw]

theorem no_nl_append (a b : List Char) (ha : nl ∉ a) (hb : nl ∉ b) : nl ∉ a ++ b :=
  fun h => (List.mem_append.1 h).elim ha hb

theorem no_nl_profile_str (p : Profile) : nl ∉ p.toStr := by
  cases p <;> decide

theorem no_nl_boolStr (b : Bool) : nl ∉ boolStr b := by
  cases b <;> decide

theorem profile_value_line_no_nl (pre : List Char) (p : Profile) (hpre : nl ∉ pre) :
    nl ∉ pre ++ [qc] ++ p.toStr ++ [qc] :=
  no_nl_append _ _
    (no_nl_append _ _ (no_nl_append _ _ hpre (by decide)) (no_nl_profile_str p))
    (by decide)

theorem script_line_no_nl (s : List Char) (h : nl ∉ s) :
    nl ∉ chars "battery = " ++ [qc] ++ s ++ [qc] :=
  no_nl_append _ _ (no_nl_append _ _ (no_nl_append _ _ (by decide) (by decide)) h) (by decide)

theorem backlight_line_no_nl (b : ConfigBacklight) : nl ∉ b.line := by
  unfold ConfigBacklight.line
  exact no_nl_append _ _
    (no_nl_append _ _
      (no_nl_append _ _ (no_nl_append _ _ (by decide) (nl_not_mem_natRepr _)) (by decide))
      (nl_not_mem_natRepr _))
    (by decide)

theorem pstate_line_no_nl (p : ConfigPState) : nl ∉ p.line := by
  unfold ConfigPState.line
  exact no_nl_append _ _
    (no_nl_append _ _
      (no_nl_append _ _
        (no_nl_append _ _
          (no_nl_append _ _ (no_nl_append _ _ (by decide) (nl_not_mem_natRepr _)) (by decide))
          (nl_not_mem_natRepr _))
        (by decide))
      (no_nl_boolStr _))
    (by decide)

theorem defaults_lines_no_nl (d : ConfigDefaults) : ∀ l ∈ d.lines, nl ∉ l := by
  intro l hl
  simp only [ConfigDefaults.lines, List.mem_cons, List.not_mem_nil, or_false] at hl
  rcases hl with rfl | rfl | rfl | rfl | rfl | rfl | rfl | rfl | rfl | rfl
  · decide
  · decide
  · exact profile_value_line_no_nl _ d.battery (by decide)
  · decide
  · exact profile_value_line_no_nl _ d.ac (by decide)
  · decide
  · exact profile_value_line_no_nl _ d.last_profile (by decide)
  · decide
  · split <;> decide
  · decide

theorem thresholds_lines_no_nl (t : ConfigThresholds) : ∀ l ∈ t.lines, nl ∉ l := by
  intro l hl
  simp only [ConfigThresholds.lines, List.mem_cons, List.not_mem_nil, or_false] at hl
  rcases hl with rfl | rfl | rfl | rfl | rfl | rfl
  · decide
  · decide
  · exact no_nl_append _ _ (by decide) (nl_not_mem_natRepr _)
  · decide
  · exact no_nl_append _ _ (by decide) (nl_not_mem_natRepr _)
  · decide

theorem profile_lines_no_nl (p : ConfigProfile) (hs : ∀ s, p.script = some s → nl ∉ s) :
    ∀ l ∈ p.lines, nl ∉ l := by
  intro l hl
  simp only [ConfigProfile.lines, List.mem_append, List.mem_singleton] at hl
  rcases hl with ((hA | hB) | rfl) | rfl
  · rcases hbl : p.backlight with _ | b
    · rw [hbl] at hA; simp at hA
    · rw [hbl] at hA
      simp at hA
      subst hA
      exact backlight_line_no_nl b
  · rcases hps : p.pstate with _ | pst
    · rw [hps] at hB; simp at hB
    · rw [hps] at hB
      simp at hB
      subst hB
      exact pstate_line_no_nl pst
  · rcases hscr : p.script with _ | s
    · simp only [hscr]; decide
    · simp only [hscr]; exact script_line_no_nl s (hs s hscr)
  · decide

theorem docLines_no_nl (c : Config)
    (hn1 : ∀ s, c.profiles.battery.script = some s → nl ∉ s)
    (hn2 : ∀ s, c.profiles.balanced.script = some s → nl ∉ s)
    (hn3 : ∀ s, c.profiles.performance.script = some s → nl ∉ s) :
    ∀ l ∈ Config.docLines c, nl ∉ l := by
  intro l hl
  unfold Config.docLines at hl
  rcases List.mem_append.1 hl with hl | hpf
  · rcases List.mem_append.1 hl with hl | ht
    · rcases List.mem_append.1 hl with hl | hd
      · simp only [List.mem_cons, List.not_mem_nil, or_false] at hl
        rcases hl with rfl | rfl
        · decide
        · decide
      · exact defaults_lines_no_nl c.defaults l hd
    · exact thresholds_lines_no_nl c.thresholds l ht
  · unfold ConfigProfiles.lines at hpf
    rcases List.mem_append.1 hpf with h | hpl
    · rcases List.mem_append.1 h with h | h3
      · rcases List.mem_append.1 h with h | hll
        · rcases List.mem_append.1 h with h | h2
          · rcases List.mem_append.1 h with h1 | hbl
            · simp only [List.mem_singleton] at h1
              subst h1
              decide
            · exact profile_lines_no_nl c.profiles.battery hn1 l hbl
          · simp only [List.mem_singleton] at h2
            subst h2
            decide
        · exact profile_lines_no_nl c.profiles.balanced hn2 l hll
      · simp only [List.mem_singleton] at h3
        subst h3
        decide
    · exact profile_lines_no_nl c.profiles.performance hn3 l hpl

theorem parseDocLines_serialize (c : Config)
    (hq1 : ∀ s, c.profiles.battery.script = some s → qc ∉ s)
    (hq2 : ∀ s, c.profiles.balanced.script = some s → qc ∉ s)
    (hq3 : ∀ s, c.profiles.performance.script = some s → qc ∉ s) :
    parseDocLines [] (Config.docLines c ++ [[]])
      = some (rawOf c, chars "profiles.performance") := by
  unfold Config.docLines
  simp only [List.cons_append, List.nil_append, List.append_assoc]
  rw [pdl_comment (by decide : parseLine
    (chars "# This config is automatically generated by system76-power.") = some .comment)]
  rw [pdl_blank (by decide : parseLine ([] : List Char) = some .blank)]
  rw [pdl_defaults]
  rw [pdl_thresholds]
  rw [pdl_profiles _ _ _ hq1 hq2 hq3]
  rw [pdl_blank (by decide : parseLine ([] : List Char) = some .blank)]
  rw [pdl_nil]
  simp [rawOf, List.append_assoc]

theorem parseDoc_serialize (c : Config)
    (hq1 : ∀ s, c.profiles.battery.script = some s → qc ∉ s)
    (hq2 : ∀ s, c.profiles.balanced.script = some s → qc ∉ s)
    (hq3 : ∀ s, c.profiles.performance.script = some s → qc ∉ s)
    (hn1 : ∀ s, c.profiles.battery.script = some s → nl ∉ s)
    (hn2 : ∀ s, c.profiles.balanced.script = some s → nl ∉ s)
    (hn3 : ∀ s, c.profiles.performance.script = some s → nl ∉ s) :
    parseDoc (Config.serialize c) = some (rawOf c) := by
  unfold parseDoc Config.serialize
  rw [splitOnChar_flatten nl _ (docLines_no_nl c hn1 hn2 hn3)]
  rw [parseDocLines_serialize c hq1 hq2 hq3]
  rfl

theorem fromStr_toStr (p : Profile) : Profile.fromStr p.toStr = some p := by
  cases p <;> decide

theorem rawHeaders_append (a b : List RawItem) :
    rawHeaders (a ++ b) = rawHeaders a ++ rawHeaders b := by
  simp [rawHeaders, List.filterMap_append]

theorem rawHeaders_defaultsRaw (d : ConfigDefaults) :
    rawHeaders (defaultsRaw d) = [chars "defaults"] := by
  cases hexp : d.experimental <;> simp [defaultsRaw, rawHeaders, hexp]

theorem rawHeaders_thresholdRaw (t : ConfigThresholds) :
    rawHeaders (thresholdRaw t) = [chars "threshold"] := by
  simp [thresholdRaw, rawHeaders]

theorem rawHeaders_profileBodyRaw (sec : List Char) (p : ConfigProfile) :
    rawHeaders (profileBodyRaw sec p) = [] := by
  rcases hbl : p.backlight with _ | b <;> rcases hps : p.pstate with _ | pst <;>
    rcases hs : p.script with _ | s <;>
    simp [profileBodyRaw, rawHeaders, hbl, hps, hs]

theorem rawHeaders_profileRaw (sec : List Char) (p : ConfigProfile) :
    rawHeaders (profileRaw sec p) = [sec] := by
  have h : rawHeaders (profileRaw sec p) = sec :: rawHeaders (profileBodyRaw sec p) := by
    simp [profileRaw, rawHeaders]
  rw [h, rawHeaders_profileBodyRaw]

theorem rawHeaders_rawOf (c : Config) :
    rawHeaders (rawOf c)
      = [chars "defaults", chars "threshold", chars "profiles.battery",
         chars "profiles.balanced", chars "profiles.performance"] := by
  simp [rawOf, rawHeaders_append, rawHeaders_defaultsRaw, rawHeaders_thresholdRaw,
    rawHeaders_profileRaw]

/-- The key/value pairs of the defaults section of a serialized
document. -/
def defaultsPairs (d : ConfigDefaults) : List (List Char × TomlValue) :=
  (chars "battery", .scalar (.str d.battery.toStr)) ::
  (chars "ac", .scalar (.str d.ac.toStr)) ::
  (chars "last_profile", .scalar (.str d.last_profile.toStr)) ::
  (if d.experimental then [(chars "experimental", .scalar (.bool true))] else [])

/-- The key/value pairs of one profile section of a serialized
document. -/
def profilePairs (p : ConfigProfile) : List (List Char × TomlValue) :=
  (match p.backlight with
    | some b => [(chars "backlight",
        TomlValue.table [(chars "keyboard", .int b.keyboard), (chars "screen", .int b.screen)])]
    | none => []) ++
  ((match p.pstate with
    | some ps => [(chars "pstate",
        TomlValue.table [(chars "min", .int ps.min), (chars "max", .int ps.max),
                         (chars "turbo", .bool ps.turbo)])]
    | none => []) ++
  (match p.script with
    | some s => [(chars "battery", TomlValue.scalar (.str s))]
    | none => []))

theorem sectionKVs_append (a b : List RawItem) (sec : List Char) :
    sectionKVs (a ++ b) sec = sectionKVs a sec ++ sectionKVs b sec := by
  simp [sectionKVs, List.filterMap_append]

theorem sectionKVs_defaultsRaw_self (d : ConfigDefaults) :
    sectionKVs (defaultsRaw d) (chars "defaults") = defaultsPairs d := by
  cases hexp : d.experimental <;> simp [defaultsRaw, defaultsPairs, sectionKVs, hexp]

theorem sectionKVs_defaultsRaw_other (d : ConfigDefaults) (sec : List Char)
    (h : ¬ chars "defaults" = sec) :
    sectionKVs (defaultsRaw d) sec = [] := by
  cases hexp : d.experimental <;> simp [defaultsRaw, sectionKVs, hexp, h]

theorem sectionKVs_thresholdRaw_other (t : ConfigThresholds) (sec : List Char)
    (h : ¬ chars "threshold" = sec) :
    sectionKVs (thresholdRaw t) sec = [] := by
  simp [thresholdRaw, sectionKVs, h]

theorem sectionKVs_profileRaw_self (sec : List Char) (p : ConfigProfile) :
    sectionKVs (profileRaw sec p) sec = profilePairs p := by
  rcases hbl : p.backlight with _ | b <;> rcases hps : p.pstate with _ | pst <;>
    rcases hs : p.script with _ | s <;>
    simp [profileRaw, profileBodyRaw, profilePairs, sectionKVs, hbl, hps, hs]

theorem sectionKVs_profileRaw_other (sec sec' : List Char) (p : ConfigProfile)
    (h : ¬ sec = sec') :
    sectionKVs (profileRaw sec p) sec' = [] := by
  rcases hbl : p.backlight with _ | b <;> rcases hps : p.pstate with _ | pst <;>
    rcases hs : p.script with _ | s <;>
    simp [profileRaw, profileBodyRaw, sectionKVs, hbl, hps, hs, h]

theorem fromPairs_defaultsPairs (d : ConfigDefaults) :
    ConfigDefaults.fromPairs (defaultsPairs d) = some d := by
  obtain ⟨b, a, lp, e⟩ := d
  cases e <;>
    simp +decide [defaultsPairs, ConfigDefaults.fromPairs, profileField, boolFieldD, lookupKV,
      List.find?, fromStr_toStr]

theorem fromPairs_profilePairs (p : ConfigProfile) :
    ConfigProfile.fromPairs (profilePairs p)
      = some { backlight := p.backlight, pstate := p.pstate, script := none } := by
  rcases hbl : p.backlight with _ | b <;> rcases hps : p.pstate with _ | pst <;>
    rcases hs : p.script with _ | s <;>
    simp +decide [profilePairs, hbl, hps, hs, ConfigProfile.fromPairs, lookupKV, natFieldS,
      boolFieldS, lookupKVS, ConfigBacklight.fromTable, ConfigPState.fromTable, List.find?]

/-- A profile descriptor with its script forgotten — what survives a
serialize→parse round trip, since the serializer writes the script
under the key `battery`, which the deserializer ignores. -/
def ConfigProfile.dropScript (p : ConfigProfile) : ConfigProfile :=
  { p with script := none }

/-- The image of a config under a serialize→parse round trip: the
defaults survive, the thresholds revert to the compiled-in defaults
(section/key mismatch `threshold`/`crtical` vs `thresholds`/`critical`)
and the scripts are dropped. -/
def Config.roundTripImage (c : Config) : Config :=
  { defaults := c.defaults
    thresholds := ConfigThresholds.default
    profiles :=
      { battery := c.profiles.battery.dropScript
        balanced := c.profiles.balanced.dropScript
        performance := c.profiles.performance.dropScript } }

theorem fromRaw_rawOf (c : Config) :
    Config.fromRaw (rawOf c) = some (Config.roundTripImage c) := by
  have hH := rawHeaders_rawOf c
  have h1 : hasTopKey (rawOf c) (chars "defaults") = true := by
    unfold hasTopKey; rw [hH]; decide
  have h2 : hasTopKey (rawOf c) (chars "thresholds") = false := by
    unfold hasTopKey; rw [hH]; decide
  have h3 : hasTopKey (rawOf c) (chars "profiles") = true := by
    unfold hasTopKey; rw [hH]; decide
  have h4 : hasTopKey (rawOf c) (chars "profiles.battery") = true := by
    unfold hasTopKey; rw [hH]; decide
  have h5 : hasTopKey (rawOf c) (chars "profiles.balanced") = true := by
    unfold hasTopKey; rw [hH]; decide
  have h6 : hasTopKey (rawOf c) (chars "profiles.performance") = true := by
    unfold hasTopKey; rw [hH]; decide
  have hs1 : sectionKVs (rawOf c) (chars "defaults") = defaultsPairs c.defaults := by
    simp only [rawOf, sectionKVs_append]
    rw [sectionKVs_defaultsRaw_self,
      sectionKVs_thresholdRaw_other _ _ (by decide),
      sectionKVs_profileRaw_other _ _ _ (by decide),
      sectionKVs_profileRaw_other _ _ _ (by decide),
      sectionKVs_profileRaw_other _ _ _ (by decide)]
    simp
  have hs2 : sectionKVs (rawOf c) (chars "profiles.battery")
      = profilePairs c.profiles.battery := by
    simp only [rawOf, sectionKVs_append]
    rw [sectionKVs_defaultsRaw_other _ _ (by decide),
      sectionKVs_thresholdRaw_other _ _ (by decide),
      sectionKVs_profileRaw_self,
      sectionKVs_profileRaw_other _ _ _ (by decide),
      sectionKVs_profileRaw_other _ _ _ (by decide)]
    simp
  have hs3 : sectionKVs (rawOf c) (chars "profiles.balanced")
      = profilePairs c.profiles.balanced := by
    simp only [rawOf, sectionKVs_append]
    rw [sectionKVs_defaultsRaw_other _ _ (by decide),
      sectionKVs_thresholdRaw_other _ _ (by decide),
      sectionKVs_profileRaw_other _ _ _ (by decide),
      sectionKVs_profileRaw_self,
      sectionKVs_profileRaw_other _ _ _ (by decide)]
    simp
  have hs4 : sectionKVs (rawOf c) (chars "profiles.performance")
      = profilePairs c.profiles.performance := by
    simp only [rawOf, sectionKVs_append]
    rw [sectionKVs_defaultsRaw_other _ _ (by decide),
      sectionKVs_thresholdRaw_other _ _ (by decide),
      sectionKVs_profileRaw_other _ _ _ (by decide),
      sectionKVs_profileRaw_other _ _ _ (by decide),
      sectionKVs_profileRaw_self]
    simp
  unfold Config.fromRaw ConfigProfiles.fromRaw
  rw [h1, h2, h3, h4, h5, h6, hs1, hs2, hs3, hs4]
  simp [fromPairs_defaultsPairs, fromPairs_profilePairs, Config.roundTripImage,
    ConfigProfile.dropScript]

/-- Master round-trip evaluation: deserializing a serialized config
succeeds (for scripts free of quote and newline bytes) and yields the
round-trip image. -/
theorem deserialize_serialize (c : Config)
    (hq1 : ∀ s, c.profiles.battery.script = some s → qc ∉ s ∧ nl ∉ s)
    (hq2 : ∀ s, c.profiles.balanced.script = some s → qc ∉ s ∧ nl ∉ s)
    (hq3 : ∀ s, c.profiles.performance.script = some s → qc ∉ s ∧ nl ∉ s) :
    Config.deserialize (Config.serialize c) = some (Config.roundTripImage c) := by
  unfold Config.deserialize
  rw [parseDoc_serialize c
    (fun s hs => (hq1 s hs).1) (fun s hs => (hq2 s hs).1) (fun s hs => (hq3 s hs).1)
    (fun s hs => (hq1 s hs).2) (fun s hs => (hq2 s hs).2) (fun s hs => (hq3 s hs).2)]
  simp [fromRaw_rawOf]

/-- C1 counterexample: serializing a config whose thresholds differ
from the compiled-in defaults and parsing the result does not
reproduce the config — the thresholds are lost (the serializer writes
`[threshold]`/`crtical`, the deserializer reads
`[thresholds]`/`critical`). -/
theorem serialize_roundtrip_counterexample :
    Config.deserialize (Config.serialize
        { Config.default with thresholds := { critical := 30, normal := 60 } })
      ≠ some { Config.default with thresholds := { critical := 30, normal := 60 } } := by
  decide

/-- C1 (amended): parsing the document produced by serializing an
aggregate (whose scripts, when set, contain no quote or newline byte)
succeeds and reproduces the defaults section and the per-profile
backlight and pstate sub-fields; the thresholds however revert to the
compiled-in defaults and the per-profile scripts are dropped, because
the serializer writes the threshold section as `[threshold]` with key
`crtical` and the script line under the key `battery`, neither of
which the deserializer recognizes. -/
theorem serialize_roundtrip_amended (c : Config)
    (hq1 : ∀ s, c.profiles.battery.script = some s → qc ∉ s ∧ nl ∉ s)
    (hq2 : ∀ s, c.profiles.balanced.script = some s → qc ∉ s ∧ nl ∉ s)
    (hq3 : ∀ s, c.profiles.performance.script = some s → qc ∉ s ∧ nl ∉ s) :
    Config.deserialize (Config.serialize c) = some (Config.roundTripImage c) ∧
    (Config.roundTripImage c).defaults = c.defaults ∧
    (Config.roundTripImage c).profiles.battery.backlight = c.profiles.battery.backlight ∧
    (Config.roundTripImage c).profiles.battery.pstate = c.profiles.battery.pstate ∧
    (Config.roundTripImage c).profiles.balanced.backlight = c.profiles.balanced.backlight ∧
    (Config.roundTripImage c).profiles.balanced.pstate = c.profiles.balanced.pstate ∧
    (Config.roundTripImage c).profiles.performance.backlight
      = c.profiles.performance.backlight ∧
    (Config.roundTripImage c).profiles.performance.pstate = c.profiles.performance.pstate ∧
    (Config.roundTripImage c).thresholds = ConfigThresholds.default ∧
    (Config.roundTripImage c).profiles.battery.script = none ∧
    (Config.roundTripImage c).profiles.balanced.script = none ∧
    (Config.roundTripImage c).profiles.performance.script = none :=
  ⟨deserialize_serialize c hq1 hq2 hq3,
    rfl, rfl, rfl, rfl, rfl, rfl, rfl, rfl, rfl, rfl, rfl⟩

/-- Witness for C1's amended theorem at the default config. -/
theorem serialize_roundtrip_amended_witness :
    Config.deserialize (Config.serialize Config.default)
      = some (Config.roundTripImage Config.default) :=
  (serialize_roundtrip_amended Config.default
    (fun _ hs => nomatch hs) (fun _ hs => nomatch hs) (fun _ hs => nomatch hs)).1

/-- C8: serializing any aggregate (with quote/newline-free scripts)
yields a deterministic document whose sections appear in the stable
order defaults, threshold (spelled `[threshold]`, with the historical
misspelling `crtical` for the critical key), then one sub-section per
profile in the fixed taxonomy order battery, balanced, performance. -/
theorem serialize_section_order (c : Config)
    (hq1 : ∀ s, c.profiles.battery.script = some s → qc ∉ s ∧ nl ∉ s)
    (hq2 : ∀ s, c.profiles.balanced.script = some s → qc ∉ s ∧ nl ∉ s)
    (hq3 : ∀ s, c.profiles.performance.script = some s → qc ∉ s ∧ nl ∉ s) :
    ∃ raw, parseDoc (Config.serialize c) = some raw ∧
      rawHeaders raw = [chars "defaults", chars "threshold", chars "profiles.battery",
        chars "profiles.balanced", chars "profiles.performance"] ∧
      RawItem.kv (chars "threshold") (chars "crtical")
        (.scalar (.int c.thresholds.critical)) ∈ raw ∧
      RawItem.kv (chars "threshold") (chars "normal")
        (.scalar (.int c.thresholds.normal)) ∈ raw := by
  refine ⟨rawOf c,
    parseDoc_serialize c
      (fun s hs => (hq1 s hs).1) (fun s hs => (hq2 s hs).1) (fun s hs => (hq3 s hs).1)
      (fun s hs => (hq1 s hs).2) (fun s hs => (hq2 s hs).2) (fun s hs => (hq3 s hs).2),
    rawHeaders_rawOf c, ?_, ?_⟩
  · unfold rawOf
    exact List.mem_append.2 (Or.inr (List.mem_append.2 (Or.inl (by simp [thresholdRaw]))))
  · unfold rawOf
    exact List.mem_append.2 (Or.inr (List.mem_append.2 (Or.inl (by simp [thresholdRaw]))))

/-- Witness for C8 at the default config. -/
theorem serialize_section_order_witness :
    ∃ raw, parseDoc (Config.serialize Config.default) = some raw ∧
      rawHeaders raw = [chars "defaults", chars "threshold", chars "profiles.battery",
        chars "profiles.balanced", chars "profiles.performance"] ∧
      RawItem.kv (chars "threshold") (chars "crtical")
        (.scalar (.int Config.default.thresholds.critical)) ∈ raw ∧
      RawItem.kv (chars "threshold") (chars "normal")
        (.scalar (.int Config.default.thresholds.normal)) ∈ raw :=
  serialize_section_order Config.default
    (fun _ hs => nomatch hs) (fun _ hs => nomatch hs) (fun _ hs => nomatch hs)

/-- C10: parsing the document produced by serializing any aggregate
(with quote/newline-free scripts) yields threshold values equal to the
compiled-in defaults (critical 25, normal 50) regardless of the
serialized threshold values: the serializer emits section `threshold`
with key `crtical`, the deserializer only recognizes `thresholds` with
key `critical`, finds no such top-level key, and falls back to the
`#[serde(default)]` value. -/
theorem roundtrip_thresholds_default (c : Config)
    (hq1 : ∀ s, c.profiles.battery.script = some s → qc ∉ s ∧ nl ∉ s)
    (hq2 : ∀ s, c.profiles.balanced.script = some s → qc ∉ s ∧ nl ∉ s)
    (hq3 : ∀ s, c.profiles.performance.script = some s → qc ∉ s ∧ nl ∉ s) :
    (Config.deserialize (Config.serialize c)).map (fun c' => c'.thresholds)
      = some { critical := 25, normal := 50 } ∧
    (parseDoc (Config.serialize c)).map (fun raw => hasTopKey raw (chars "thresholds"))
      = some false ∧
    (parseDoc (Config.serialize c)).map (fun raw => hasTopKey raw (chars "threshold"))
      = some true := by
  have hd := deserialize_serialize c hq1 hq2 hq3
  have hp := parseDoc_serialize c
    (fun s hs => (hq1 s hs).1) (fun s hs => (hq2 s hs).1) (fun s hs => (hq3 s hs).1)
    (fun s hs => (hq1 s hs).2) (fun s hs => (hq2 s hs).2) (fun s hs => (hq3 s hs).2)
  refine ⟨by rw [hd]; rfl, ?_, ?_⟩
  · rw [hp]
    simp only [Option.map_some']
    rw [show hasTopKey (rawOf c) (chars "thresholds") = false from by
      unfold hasTopKey; rw [rawHeaders_rawOf]; decide]
  · rw [hp]
    simp only [Option.map_some']
    rw [show hasTopKey (rawOf c) (chars "threshold") = true from by
      unfold hasTopKey; rw [rawHeaders_rawOf]; decide]

/-- Witness for C10 at a config with non-default thresholds. -/
theorem roundtrip_thresholds_default_witness :
    (Config.deserialize (Config.serialize
        { Config.default with thresholds := { critical := 30, normal := 60 } })).map
      (fun c' => c'.thresholds) = some { critical := 25, normal := 50 } :=
  (roundtrip_thresholds_default
    { Config.default with thresholds := { critical := 30, normal := 60 } }
    (fun _ hs => nomatch hs) (fun _ hs => nomatch hs) (fun _ hs => nomatch hs)).1
